import Mathlib

/-!
Verification development for the traderjim credit-spread trading engine.

The Python source under `src/` is embedded shallowly:

* Python `float` values are modelled as rational numbers `ℚ` (the claims
  under study are order/arithmetic relations, not bit-level float facts);
* Python `float` division, which raises `ZeroDivisionError` on a zero
  divisor, is modelled by `pyDiv : ℚ → ℚ → Option ℚ`; functions that can
  divide by zero therefore return `Option`;
* Python `int(x)` (truncation toward zero) is modelled by `pyTrunc`;
* calendar dates (`YYYY-MM-DD` strings parsed with `strptime`) are
  modelled as integer day ordinals, and `datetime.now()` becomes an
  explicit `today`/`now` parameter;
* interpolated f-string messages are modelled as tagged inductive values
  carrying the interpolated numbers; plain string constants are kept as
  the exact source strings.
-/

/-- Python float division: raises `ZeroDivisionError` when the divisor is
zero, modelled as `none`. -/
def pyDiv (a b : ℚ) : Option ℚ :=
  if b = 0 then none else some (a / b)

/-- Python `int(x)` on a float: truncation toward zero. -/
def pyTrunc (q : ℚ) : ℤ :=
  if 0 ≤ q then ⌊q⌋ else ⌈q⌉

theorem pyDiv_ne_zero {a b : ℚ} (h : b ≠ 0) : pyDiv a b = some (a / b) := by
  simp [pyDiv, h]

theorem pyTrunc_mono {a b : ℚ} (h : a ≤ b) : pyTrunc a ≤ pyTrunc b := by
  unfold pyTrunc
  by_cases ha : 0 ≤ a
  · have hb : 0 ≤ b := le_trans ha h
    simp only [ha, hb, if_pos]
    exact Int.floor_le_floor h
  · by_cases hb : 0 ≤ b
    · simp only [ha, hb, if_pos, if_neg, ite_true, ite_false]
      have h1 : (⌈a⌉ : ℤ) ≤ 0 := Int.ceil_le.mpr (by exact_mod_cast le_of_not_le ha)
      have h2 : (0 : ℤ) ≤ ⌊b⌋ := Int.floor_nonneg.mpr hb
      exact le_trans h1 h2
    · simp only [ha, hb, if_neg, ite_false]
      exact Int.ceil_le_ceil h

theorem pyTrunc_nonneg {a : ℚ} (h : 0 ≤ a) : 0 ≤ pyTrunc a := by
  unfold pyTrunc
  simp only [h, if_pos]
  exact Int.floor_nonneg.mpr h

/-! ## Embedding of `src/core/types.py` (the parts the claims use) -/

/-- `SpreadType` enum from `core/types.py`. -/
inductive SpreadType where
  | bull_put
  | bear_call
deriving DecidableEq, Repr

/-- `TradeStatus` enum from `core/types.py`: it defines exactly the two
members `OPEN = "open"` and `CLOSED = "closed"` (constructor `opened`
stands for the member `OPEN`, since `open` is a Lean keyword). -/
inductive TradeStatus where
  | opened
  | closed
deriving DecidableEq, Repr

/-- Python attribute lookup `TradeStatus.<name>` on the enum class:
returns the member when it exists, `none` (an `AttributeError`) when it
does not.  `core/types.py` defines only `OPEN` and `CLOSED`. -/
def TradeStatus.attr (name : String) : Option TradeStatus :=
  if name = "OPEN" then some .opened
  else if name = "CLOSED" then some .closed
  else none

/-- `Greeks` dataclass from `core/types.py`. -/
structure Greeks where
  delta : ℚ
  gamma : ℚ
  theta : ℚ
  vega : ℚ
deriving DecidableEq, Repr

/-- `OptionContract` dataclass from `core/types.py`.  `expiration` is a
day ordinal (the source stores a `YYYY-MM-DD` string). -/
structure OptionContract where
  symbol : String
  underlying : String
  expiration : ℤ
  strike : ℚ
  option_type : String
  bid : ℚ
  ask : ℚ
  last : ℚ
  volume : ℤ
  open_interest : ℤ
  implied_volatility : ℚ
  greeks : Option Greeks := none
deriving DecidableEq, Repr

/-- `CreditSpread` dataclass from `core/types.py`. -/
structure CreditSpread where
  underlying : String
  spread_type : SpreadType
  short_strike : ℚ
  long_strike : ℚ
  expiration : ℤ
  short_contract : OptionContract
  long_contract : OptionContract
deriving DecidableEq, Repr

/-- `CreditSpread.width` property: `abs(short_strike - long_strike)`. -/
def CreditSpread.width (s : CreditSpread) : ℚ :=
  |s.short_strike - s.long_strike|

/-- `CreditSpread.credit` property: mid of short minus mid of long. -/
def CreditSpread.credit (s : CreditSpread) : ℚ :=
  (s.short_contract.bid + s.short_contract.ask) / 2
    - (s.long_contract.bid + s.long_contract.ask) / 2

/-- `CreditSpread.max_loss` property: `(width - credit) * 100`. -/
def CreditSpread.max_loss (s : CreditSpread) : ℚ :=
  (s.width - s.credit) * 100

/-- `CreditSpread.max_profit` property: `credit * 100`. -/
def CreditSpread.max_profit (s : CreditSpread) : ℚ :=
  s.credit * 100

/-- `Position` dataclass from `core/types.py` (`updated_at` as seconds). -/
structure Position where
  id : String
  trade_id : String
  underlying : String
  short_strike : ℚ
  long_strike : ℚ
  expiration : ℤ
  contracts : ℤ
  current_value : ℚ
  unrealized_pnl : ℚ
  updated_at : ℚ
deriving DecidableEq, Repr

/-- `Trade` dataclass from `core/types.py` (fields the monitor reads;
`status` is kept as the raw stored string because the database rows use
values such as `"pending_fill"` that the `TradeStatus` enum cannot
represent). -/
structure Trade where
  id : String
  recommendation_id : Option String
  status : String
  underlying : String
  spread_type : SpreadType
  short_strike : ℚ
  long_strike : ℚ
  expiration : ℤ
  entry_credit : ℚ
  contracts : ℤ := 1
  broker_order_id : Option String := none
deriving DecidableEq, Repr

/-! ## Embedding of `core/analysis/greeks.py`: `days_to_expiry`

`days_to_expiry(expiration)` parses the date and returns
`max(0, (exp_date - datetime.now()).days)`; with day ordinals this is
`max 0 (exp - today)`. -/

/-- `days_to_expiry` from `core/analysis/greeks.py`, with `today` made
an explicit parameter in place of `datetime.now()`. -/
def days_to_expiry (today exp : ℤ) : ℤ :=
  max 0 (exp - today)

/-! ## Embedding of `core/risk/validators.py` -/

/-- Reasons produced by `ExitValidator`.  Each constructor stands for one
f-string in the source, carrying the interpolated quantity:
`invalidCredit` = "Invalid entry credit";
`profitTarget p` = "Profit target reached (p of max)";
`stopLoss l` = "Stop loss triggered (loss = l of credit)";
`timeExit d` = "Time exit triggered (d DTE <= 21)". -/
inductive ExitReason where
  | invalidCredit
  | profitTarget (profit_pct : ℚ)
  | stopLoss (loss_over_credit : ℚ)
  | timeExit (dte : ℤ)
deriving DecidableEq, Repr

/-- `ValidationResult` dataclass from `core/risk/validators.py`
(specialised to the exit checks' reasons). -/
structure ValidationResult where
  valid : Bool
  reason : Option ExitReason := none
deriving DecidableEq, Repr

/-- `ExitValidator.PROFIT_TARGET_PCT`. -/
def PROFIT_TARGET_PCT : ℚ := 1/2

/-- `ExitValidator.STOP_LOSS_PCT`. -/
def STOP_LOSS_PCT : ℚ := 2

/-- `ExitValidator.TIME_EXIT_DTE`. -/
def TIME_EXIT_DTE : ℤ := 21

/-- `ExitValidator.check_profit_target` from `core/risk/validators.py`.
Division is by `entry_credit`, nonzero in the branch where it occurs. -/
def check_profit_target (entry_credit current_value : ℚ) : ValidationResult :=
  if entry_credit ≤ 0 then
    { valid := false, reason := some .invalidCredit }
  else
    let profit := entry_credit - current_value
    let profit_pct := profit / entry_credit
    if profit_pct ≥ PROFIT_TARGET_PCT then
      { valid := true, reason := some (.profitTarget profit_pct) }
    else
      { valid := false }

/-- `ExitValidator.check_stop_loss` from `core/risk/validators.py`. -/
def check_stop_loss (entry_credit current_value : ℚ) : ValidationResult :=
  if entry_credit ≤ 0 then
    { valid := false, reason := some .invalidCredit }
  else
    let max_loss_before_stop := entry_credit * STOP_LOSS_PCT
    let current_loss := current_value - entry_credit
    if current_loss ≥ max_loss_before_stop then
      { valid := true, reason := some (.stopLoss (current_loss / entry_credit)) }
    else
      { valid := false }

/-- `ExitValidator.check_time_exit` from `core/risk/validators.py`. -/
def check_time_exit (today exp : ℤ) : ValidationResult :=
  let dte := days_to_expiry today exp
  if dte ≤ TIME_EXIT_DTE then
    { valid := true, reason := some (.timeExit dte) }
  else
    { valid := false }

/-- `ExitValidator.check_all_exit_conditions` from
`core/risk/validators.py`: profit target, then stop loss, then time
exit; returns the first triggered reason. -/
def check_all_exit_conditions (today : ℤ) (entry_credit current_value : ℚ)
    (exp : ℤ) : Bool × Option ExitReason :=
  let profit_check := check_profit_target entry_credit current_value
  if profit_check.valid then (true, profit_check.reason)
  else
    let stop_check := check_stop_loss entry_credit current_value
    if stop_check.valid then (true, stop_check.reason)
    else
      let time_check := check_time_exit today exp
      if time_check.valid then (true, time_check.reason)
      else (false, none)

/-! ## Embedding of `core/risk/position_sizer.py` -/

/-- `RiskLimits` dataclass from `core/risk/position_sizer.py`.  The field
`max_heat_pct` embeds the source field `max_portfo`​`lio_heat_pct`. -/
structure RiskLimits where
  max_risk_per_trade_pct : ℚ := 1/50
  max_single_position_pct : ℚ := 1/20
  max_heat_pct : ℚ := 1/10
  high_vix_threshold : ℚ := 40
  high_vix_reduction : ℚ := 3/4
  extreme_vix_threshold : ℚ := 50
deriving DecidableEq, Repr

/-- Reasons produced by `PositionSizer.calculate_size`, one constructor
per reason string in the source; interpolated values are carried as
payloads.  `invalidSpread` is the plain source string
"Invalid spread: no risk calculated". -/
inductive SizeReason where
  | vixExtreme (vix threshold : ℚ)
  | invalidSpread
  | heatLimitReached (heat_pct max_pct : ℚ)
  | tradeRiskExceeds
  | positionExceeds
  | limitedByHeat (heat_pct : ℚ)
  | limitedByPosition
  | reducedByVix (reduction vix : ℚ)
deriving DecidableEq, Repr

/-- `PositionSizeResult` dataclass from `core/risk/position_sizer.py`. -/
structure PositionSizeResult where
  contracts : ℤ
  risk_amount : ℚ
  risk_percent : ℚ
  reason : Option SizeReason := none
deriving DecidableEq, Repr

/-- Body of `PositionSizer.calculate_size` after the extreme-VIX check
(source lines 69-136).  Divisions are `pyDiv`, so the whole computation
is `none` exactly when the Python code would raise
`ZeroDivisionError`. -/
def calculate_size_core (limits : RiskLimits) (spread : CreditSpread)
    (account_equity : ℚ) (current_positions : List Position)
    (current_vix : Option ℚ) : Option PositionSizeResult := do
  let max_trade_risk := account_equity * limits.max_risk_per_trade_pct
  let max_position_value := account_equity * limits.max_single_position_pct
  let current_heat := (current_positions.map (fun p => |p.current_value|)).sum
  let current_heat_pct ←
    if account_equity > 0 then pyDiv current_heat account_equity else some 0
  let max_heat := account_equity * limits.max_heat_pct
  let available_heat := max 0 (max_heat - current_heat)
  let risk_per_contract := spread.max_loss
  if risk_per_contract ≤ 0 then
    return { contracts := 0, risk_amount := 0, risk_percent := 0,
             reason := some .invalidSpread }
  let q1 ← pyDiv max_trade_risk risk_per_contract
  let max_by_trade_risk := pyTrunc q1
  let q2 ← pyDiv max_position_value risk_per_contract
  let max_by_position := pyTrunc q2
  let q3 ← pyDiv available_heat risk_per_contract
  let max_by_heat := pyTrunc q3
  let contracts0 := max 0 (min max_by_trade_risk (min max_by_position max_by_heat))
  let reason0 : Option SizeReason :=
    if contracts0 = 0 then
      if max_by_heat = 0 then
        some (.heatLimitReached current_heat_pct limits.max_heat_pct)
      else if max_by_trade_risk = 0 then some .tradeRiskExceeds
      else if max_by_position = 0 then some .positionExceeds
      else none
    else if contracts0 < max_by_trade_risk then
      if contracts0 = max_by_heat then some (.limitedByHeat current_heat_pct)
      else if contracts0 = max_by_position then some .limitedByPosition
      else none
    else none
  let contracts_v : ℤ :=
    match current_vix with
    | some v =>
      if v ≥ limits.high_vix_threshold then
        max 1 (pyTrunc ((contracts0 : ℚ) * (1 - limits.high_vix_reduction)))
      else contracts0
    | none => contracts0
  let reason_v : Option SizeReason :=
    match current_vix with
    | some v =>
      if v ≥ limits.high_vix_threshold then
        if contracts_v < contracts0 then
          some (SizeReason.reducedByVix limits.high_vix_reduction v)
        else reason0
      else reason0
    | none => reason0
  let contracts1 : ℤ := if contracts_v > 0 then max 1 contracts_v else contracts_v
  let risk_amount := (contracts1 : ℚ) * risk_per_contract
  let risk_percent ←
    if account_equity > 0 then pyDiv risk_amount account_equity else some 0
  return { contracts := contracts1, risk_amount := risk_amount,
           risk_percent := risk_percent, reason := reason_v }

/-- `PositionSizer.calculate_size` from `core/risk/position_sizer.py`:
the extreme-VIX hard stop, then the capped sizing computation. -/
def calculate_size (limits : RiskLimits) (spread : CreditSpread)
    (account_equity : ℚ) (current_positions : List Position)
    (current_vix : Option ℚ) : Option PositionSizeResult :=
  match current_vix with
  | some v =>
    if v ≥ limits.extreme_vix_threshold then
      some { contracts := 0, risk_amount := 0, risk_percent := 0,
             reason := some (.vixExtreme v limits.extreme_vix_threshold) }
    else
      calculate_size_core limits spread account_equity current_positions (some v)
  | none => calculate_size_core limits spread account_equity current_positions none

/-! ## Embedding of `core/risk/circuit_breaker.py` -/

/-- `RiskLevel` enum from `core/risk/circuit_breaker.py`. -/
inductive RiskLevel where
  | normal
  | elevated
  | caution
  | high
  | critical
  | halted
deriving DecidableEq, Repr

/-- `GraduatedConfig` dataclass from `core/risk/circuit_breaker.py`. -/
structure GraduatedConfig where
  daily_alert_pct : ℚ := 1/100
  daily_reduce_pct : ℚ := 3/200
  daily_halt_pct : ℚ := 1/50
  weekly_caution_pct : ℚ := 3/100
  weekly_halt_pct : ℚ := 1/20
  drawdown_caution_pct : ℚ := 1/10
  drawdown_halt_pct : ℚ := 3/20
  stale_data_seconds : ℚ := 10
  max_api_errors_per_minute : ℤ := 5
  rapid_loss_threshold_pct : ℚ := 1/100
  rapid_loss_window_minutes : ℤ := 5
  vix_elevated : ℚ := 20
  vix_caution : ℚ := 30
  vix_high : ℚ := 40
  vix_halt : ℚ := 50
  recovery_days : ℤ := 3
  recovery_pnl_pct : ℚ := 1/100
deriving DecidableEq, Repr

/-- `RiskState` dataclass from `core/risk/circuit_breaker.py`. -/
structure RiskState where
  level : RiskLevel
  size_multiplier : ℚ
  reason : Option String := none
  should_alert : Bool := false
  should_close_positions : Bool := false
  close_position_pct : ℚ := 0
deriving DecidableEq, Repr

/-- `RiskState.normal()` classmethod. -/
def RiskState.normalState : RiskState :=
  { level := .normal, size_multiplier := 1 }

/-- `RiskState.halted(reason, close_pct)` classmethod. -/
def RiskState.haltedState (reason : String) (close_pct : ℚ := 0) : RiskState :=
  { level := .halted, size_multiplier := 0, reason := some reason,
    should_alert := true, should_close_positions := decide (close_pct > 0),
    close_position_pct := close_pct }

namespace CircuitBreakerReason

def DAILY_ALERT : String := "Daily loss alert (1%)"

def DAILY_REDUCE : String := "Daily loss elevated (1.5%) - reducing position size"

def DAILY_HALT : String := "Daily loss limit exceeded (2%) - halting new trades"

def WEEKLY_CAUTION : String := "Weekly loss caution (3%) - reducing exposure"

def WEEKLY_HALT : String := "Weekly loss limit exceeded (5%) - halting and reducing positions"

def DRAWDOWN_CAUTION : String := "Drawdown elevated (10%) - minimum sizing"

def DRAWDOWN_HALT : String := "Maximum drawdown reached (15%) - full halt"

def STALE_DATA : String := "Stale market data detected"

def API_ERRORS : String := "Excessive API errors"

def RAPID_LOSS : String := "Rapid loss detected (1% in <5 min)"

def VIX_ELEVATED : String := "VIX elevated (>20)"

def VIX_CAUTION : String := "VIX high (>30) - reducing size"

def VIX_HIGH : String := "VIX very high (>40) - significant reduction"

def VIX_HALT : String := "Extreme volatility (VIX > 50) - halting"

def MANUAL : String := "Manually triggered"

end CircuitBreakerReason

/-- `GraduatedCircuitBreaker._calculate_loss_pct`. -/
def calculate_loss_pct (starting current : ℚ) : ℚ :=
  if starting ≤ 0 then 0 else max 0 ((starting - current) / starting)

/-- `GraduatedCircuitBreaker.evaluate_daily_risk`. -/
def evaluate_daily_risk (cfg : GraduatedConfig)
    (starting_equity current_equity : ℚ) : RiskState :=
  let loss_pct := calculate_loss_pct starting_equity current_equity
  if loss_pct ≥ cfg.daily_halt_pct then
    { level := .halted, size_multiplier := 0,
      reason := some CircuitBreakerReason.DAILY_HALT, should_alert := true }
  else if loss_pct ≥ cfg.daily_reduce_pct then
    { level := .caution, size_multiplier := 1/2,
      reason := some CircuitBreakerReason.DAILY_REDUCE, should_alert := true }
  else if loss_pct ≥ cfg.daily_alert_pct then
    { level := .elevated, size_multiplier := 1,
      reason := some CircuitBreakerReason.DAILY_ALERT, should_alert := true }
  else RiskState.normalState

/-- `GraduatedCircuitBreaker.evaluate_weekly_risk`. -/
def evaluate_weekly_risk (cfg : GraduatedConfig)
    (starting_equity current_equity : ℚ) : RiskState :=
  let loss_pct := calculate_loss_pct starting_equity current_equity
  if loss_pct ≥ cfg.weekly_halt_pct then
    { level := .halted, size_multiplier := 0,
      reason := some CircuitBreakerReason.WEEKLY_HALT, should_alert := true,
      should_close_positions := true, close_position_pct := 1/2 }
  else if loss_pct ≥ cfg.weekly_caution_pct then
    { level := .high, size_multiplier := 1/2,
      reason := some CircuitBreakerReason.WEEKLY_CAUTION, should_alert := true }
  else RiskState.normalState

/-- `GraduatedCircuitBreaker.evaluate_drawdown_risk`. -/
def evaluate_drawdown_risk (cfg : GraduatedConfig)
    (peak_equity current_equity : ℚ) : RiskState :=
  let drawdown_pct := calculate_loss_pct peak_equity current_equity
  if drawdown_pct ≥ cfg.drawdown_halt_pct then
    RiskState.haltedState CircuitBreakerReason.DRAWDOWN_HALT 1
  else if drawdown_pct ≥ cfg.drawdown_caution_pct then
    { level := .critical, size_multiplier := 1/4,
      reason := some CircuitBreakerReason.DRAWDOWN_CAUTION, should_alert := true }
  else RiskState.normalState

/-- `GraduatedCircuitBreaker.evaluate_vix_risk`. -/
def evaluate_vix_risk (cfg : GraduatedConfig) (current_vix : ℚ) : RiskState :=
  if current_vix ≥ cfg.vix_halt then
    { level := .halted, size_multiplier := 0,
      reason := some CircuitBreakerReason.VIX_HALT, should_alert := true }
  else if current_vix ≥ cfg.vix_high then
    { level := .high, size_multiplier := 1/4,
      reason := some CircuitBreakerReason.VIX_HIGH, should_alert := true }
  else if current_vix ≥ cfg.vix_caution then
    { level := .caution, size_multiplier := 1/2,
      reason := some CircuitBreakerReason.VIX_CAUTION, should_alert := true }
  else if current_vix ≥ cfg.vix_elevated then
    { level := .elevated, size_multiplier := 4/5,
      reason := some CircuitBreakerReason.VIX_ELEVATED }
  else RiskState.normalState

/-- `GraduatedCircuitBreaker.evaluate_rapid_loss`; the KV read of
`daily_stats["rapid_loss_amount"]` is passed in as `rapid_loss`. -/
def evaluate_rapid_loss (cfg : GraduatedConfig) (rapid_loss : ℚ)
    (account_equity : ℚ) : RiskState :=
  if account_equity ≤ 0 then RiskState.normalState
  else
    let rapid_loss_pct := rapid_loss / account_equity
    if rapid_loss_pct ≥ cfg.rapid_loss_threshold_pct then
      { level := .halted, size_multiplier := 0,
        reason := some CircuitBreakerReason.RAPID_LOSS, should_alert := true }
    else RiskState.normalState

/-- `GraduatedCircuitBreaker.check_data_staleness` (timestamps in
seconds). -/
def check_data_staleness (cfg : GraduatedConfig)
    (last_quote_time current_time : ℚ) : RiskState :=
  let staleness := current_time - last_quote_time
  if staleness > cfg.stale_data_seconds then
    RiskState.haltedState CircuitBreakerReason.STALE_DATA
  else RiskState.normalState

/-- `CircuitBreakerStatus` dataclass from `core/types.py`
(`triggered_at` in seconds). -/
structure CircuitBreakerStatus where
  halted : Bool
  reason : Option String := none
  triggered_at : Option ℚ := none
deriving DecidableEq, Repr

/-- The durable KV state `evaluate_all` touches: the circuit-breaker
entry and the daily-stats rapid-loss accumulator. -/
structure KVState where
  circuit_breaker : CircuitBreakerStatus
  rapid_loss_amount : ℚ
deriving DecidableEq, Repr

/-- `KVClient.trip_circuit_breaker`. -/
def trip_circuit_breaker (kv : KVState) (now : ℚ) (reason : String) : KVState :=
  { kv with circuit_breaker :=
      { halted := true, reason := some reason, triggered_at := some now } }

/-- Python truthiness of an optional string (`None` and `""` falsy). -/
def pyTruthy (r : Option String) : Bool :=
  match r with
  | none => false
  | some s => s ≠ ""

/-- The list of factor states `evaluate_all` collects (source lines
324-337): drawdown, daily, weekly, rapid loss, then VIX and staleness
when supplied. -/
def evaluate_states (cfg : GraduatedConfig) (kv : KVState) (now : ℚ)
    (starting_daily_equity starting_weekly_equity peak_equity current_equity : ℚ)
    (current_vix last_quote_time : Option ℚ) : List RiskState :=
  [evaluate_drawdown_risk cfg peak_equity current_equity,
   evaluate_daily_risk cfg starting_daily_equity current_equity,
   evaluate_weekly_risk cfg starting_weekly_equity current_equity,
   evaluate_rapid_loss cfg kv.rapid_loss_amount current_equity]
  ++ (match current_vix with
      | some v => [evaluate_vix_risk cfg v]
      | none => [])
  ++ (match last_quote_time with
      | some t => [check_data_staleness cfg t now]
      | none => [])

/-- One step of the most-restrictive selection loop in `evaluate_all`:
keep the lower multiplier; on a tie, prefer an alerting state. -/
def worst_step (w s : RiskState) : RiskState :=
  if s.size_multiplier < w.size_multiplier then s
  else if s.size_multiplier = w.size_multiplier ∧ s.should_alert ∧ ¬ w.should_alert
  then s
  else w

/-- The selection loop of `evaluate_all`, starting from
`RiskState.normal()`. -/
def worst_state_of (states : List RiskState) : RiskState :=
  states.foldl worst_step RiskState.normalState

/-- `GraduatedCircuitBreaker.evaluate_all`: short-circuit on the durable
halt flag, otherwise select the most restrictive factor state and trip
the breaker when it is halted.  Returns the state together with the KV
store after the side effect. -/
def evaluate_all (cfg : GraduatedConfig) (kv : KVState) (now : ℚ)
    (starting_daily_equity starting_weekly_equity peak_equity current_equity : ℚ)
    (current_vix last_quote_time : Option ℚ) : RiskState × KVState :=
  let status := kv.circuit_breaker
  if status.halted then
    (RiskState.haltedState
      (match status.reason with
       | some s => if s = "" then CircuitBreakerReason.MANUAL else s
       | none => CircuitBreakerReason.MANUAL), kv)
  else
    let states := evaluate_states cfg kv now starting_daily_equity
      starting_weekly_equity peak_equity current_equity current_vix
      last_quote_time
    let worst := worst_state_of states
    if worst.level = .halted ∧ pyTruthy worst.reason then
      (worst, trip_circuit_breaker kv now (worst.reason.getD ""))
    else (worst, kv)

/-! ## Embedding of `core/analysis/greeks.py` (Black-Scholes part)

The transcendental primitives of Python's `math` module (`sqrt`, `log`,
`exp`, `erf`, `pi`) are not rational-valued; they are abstracted as a
`PyMath` record of total functions, and every theorem about the Greeks
quantifies over all interpretations of that record.  Divisions whose
denominator is a nonzero literal are written with plain `/`; divisions
with variable denominators use `pyDiv`. -/

/-- The `math`-module primitives used by `core/analysis/greeks.py`. -/
structure PyMath where
  sqrt : ℚ → ℚ
  log : ℚ → ℚ
  exp : ℚ → ℚ
  erf : ℚ → ℚ
  pi : ℚ

/-- `GreeksResult` dataclass from `core/analysis/greeks.py`. -/
structure GreeksResult where
  delta : ℚ
  gamma : ℚ
  theta : ℚ
  vega : ℚ
  rho : ℚ
deriving DecidableEq, Repr

/-- `norm_cdf` from `core/analysis/greeks.py`:
`0.5 * (1 + erf(x / sqrt(2)))`. -/
def norm_cdf (m : PyMath) (x : ℚ) : Option ℚ := do
  let t ← pyDiv x (m.sqrt 2)
  return 1/2 * (1 + m.erf t)

/-- `norm_pdf` from `core/analysis/greeks.py`:
`exp(-0.5 x²) / sqrt(2π)`. -/
def norm_pdf (m : PyMath) (x : ℚ) : Option ℚ :=
  pyDiv (m.exp (-(1/2) * x * x)) (m.sqrt (2 * m.pi))

/-- `calculate_d1_d2` from `core/analysis/greeks.py`: returns `(0, 0)`
when `T ≤ 0` or `σ ≤ 0`, the Black-Scholes `d1`/`d2` otherwise. -/
def calculate_d1_d2 (m : PyMath)
    (spot strike time_to_expiry volatility risk_free_rate : ℚ) :
    Option (ℚ × ℚ) :=
  if time_to_expiry ≤ 0 ∨ volatility ≤ 0 then some (0, 0)
  else do
    let sqrt_t := m.sqrt time_to_expiry
    let ratio_sk ← pyDiv spot strike
    let d1 ← pyDiv (m.log ratio_sk
        + (risk_free_rate + 1/2 * volatility^2) * time_to_expiry)
      (volatility * sqrt_t)
    return (d1, d1 - volatility * sqrt_t)

/-- `calculate_greeks` from `core/analysis/greeks.py`.  The guard of the
degenerate (at-expiration) branch tests only `time_to_expiry ≤ 0`, as in
the source; `none` marks a raised `ZeroDivisionError`. -/
def calculate_greeks (m : PyMath)
    (spot strike time_to_expiry volatility : ℚ)
    (risk_free_rate : ℚ := 1/20) (option_type : String := "call") :
    Option GreeksResult :=
  if time_to_expiry ≤ 0 then
    let delta : ℚ :=
      if option_type = "call" then (if spot > strike then 1 else 0)
      else (if spot < strike then -1 else 0)
    some { delta := delta, gamma := 0, theta := 0, vega := 0, rho := 0 }
  else do
    let d ← calculate_d1_d2 m spot strike time_to_expiry volatility risk_free_rate
    let sqrt_t := m.sqrt time_to_expiry
    let nd1 ← norm_cdf m d.1
    let nd2 ← norm_cdf m d.2
    let npd1 ← norm_pdf m d.1
    let exp_rt := m.exp (-risk_free_rate * time_to_expiry)
    let delta := if option_type = "call" then nd1 else nd1 - 1
    let gamma ← pyDiv npd1 (spot * volatility * sqrt_t)
    let theta_common ← pyDiv (-(spot * npd1 * volatility)) (2 * sqrt_t)
    let theta :=
      if option_type = "call" then
        (theta_common - risk_free_rate * strike * exp_rt * nd2) / 365
      else
        (theta_common + risk_free_rate * strike * exp_rt * (1 - nd2)) / 365
    let vega := spot * sqrt_t * npd1 / 100
    let rho :=
      if option_type = "call" then
        strike * time_to_expiry * exp_rt * nd2 / 100
      else
        -(strike * time_to_expiry * exp_rt * (1 - nd2)) / 100
    return { delta := delta, gamma := gamma, theta := theta,
             vega := vega, rho := rho }

/-- `years_to_expiry` from `core/analysis/greeks.py`:
`days_to_expiry(expiration) / 365.0`. -/
def years_to_expiry (today exp : ℤ) : ℚ :=
  (days_to_expiry today exp : ℚ) / 365

/-! ## Embedding of `core/broker/types.py` (the parts the screener and
reconciliation use) -/

/-- `OrderStatus` enum from `core/broker/types.py` (`partlyFilled`
stands for the member `PARTIALLY_FILLED = "partially_filled"`). -/
inductive OrderStatus where
  | new
  | pending
  | accepted
  | filled
  | partlyFilled
  | cancelled
  | rejected
  | expired
deriving DecidableEq, Repr

/-- `OptionContract` dataclass from `core/broker/types.py` (named
`BrokerContract` here to keep it apart from the `core/types.py`
contract). -/
structure BrokerContract where
  symbol : String
  underlying : String
  expiration : ℤ
  strike : ℚ
  option_type : String
  bid : ℚ
  ask : ℚ
  last : ℚ
  volume : ℤ
  open_interest : ℤ
  delta : Option ℚ := none
  gamma : Option ℚ := none
  theta : Option ℚ := none
  vega : Option ℚ := none
  implied_volatility : Option ℚ := none
deriving DecidableEq, Repr

/-- `OptionContract.mid` property from `core/broker/types.py`. -/
def BrokerContract.mid (c : BrokerContract) : ℚ :=
  (c.bid + c.ask) / 2

/-- `OptionsChain` dataclass from `core/broker/types.py`. -/
structure OptionsChain where
  underlying : String
  underlying_price : ℚ
  timestamp : ℚ
  expirations : List ℤ
  contracts : List BrokerContract
deriving DecidableEq, Repr

/-- `OptionsChain.get_expiration`. -/
def OptionsChain.get_expiration (ch : OptionsChain) (exp : ℤ) :
    List BrokerContract :=
  ch.contracts.filter (fun c => c.expiration = exp)

/-- `OptionsChain.get_puts` (the screener always passes an
expiration). -/
def OptionsChain.get_puts (ch : OptionsChain) (exp : ℤ) :
    List BrokerContract :=
  (ch.get_expiration exp).filter (fun c => c.option_type = "put")

/-- `OptionsChain.get_calls` (the screener always passes an
expiration). -/
def OptionsChain.get_calls (ch : OptionsChain) (exp : ℤ) :
    List BrokerContract :=
  (ch.get_expiration exp).filter (fun c => c.option_type = "call")

/-- `Order` from `core/broker/types.py` (the fields reconciliation
reads). -/
structure Order where
  id : String
  status : OrderStatus
deriving DecidableEq, Repr

/-! ## Embedding of `core/analysis/iv_rank.py` (the parts the screener
uses) -/

/-- `IVMetrics` dataclass from `core/analysis/iv_rank.py`. -/
structure IVMetrics where
  current_iv : ℚ
  iv_rank : ℚ
  iv_percentile : ℚ
  iv_high : ℚ
  iv_low : ℚ
deriving DecidableEq, Repr

/-- `is_elevated_iv` from `core/analysis/iv_rank.py`. -/
def is_elevated_iv (iv_rank threshold : ℚ) : Bool :=
  iv_rank ≥ threshold

/-! ## Embedding of `core/analysis/screener.py`

`_get_delta` falls back to `calculate_greeks` when the broker supplies
no delta; that transcendental computation is abstracted as a total
oracle `bsDelta` (matching the `PyMath` abstraction above), and every
screener theorem quantifies over all oracles.  Python's `list.sort` is a
stable sort; it is embedded as `List.insertionSort` (also stable), whose
output agrees with any stable sort for the same comparator. -/

/-- `ScreenerConfig` dataclass from `core/analysis/screener.py`. -/
structure ScreenerConfig where
  min_dte : ℤ := 30
  max_dte : ℤ := 45
  min_delta : ℚ := 1/5
  max_delta : ℚ := 3/10
  min_iv_rank : ℚ := 50
  min_credit_pct : ℚ := 1/4
  min_width : ℚ := 1
  max_width : ℚ := 10
  min_open_interest : ℤ := 100
  min_volume : ℤ := 10
  max_bid_ask_spread_pct : ℚ := 1/10
deriving DecidableEq, Repr

/-- `ScoredSpread` dataclass from `core/analysis/screener.py`. -/
structure ScoredSpread where
  spread : CreditSpread
  score : ℚ
  iv_rank : ℚ
  expected_value : ℚ
  probability_otm : ℚ
deriving DecidableEq, Repr

/-- The per-contract test of `OptionsScreener._filter_for_liquidity`. -/
def liquidity_ok (cfg : ScreenerConfig) (c : BrokerContract) : Bool :=
  if c.open_interest < cfg.min_open_interest then false
  else if c.volume < cfg.min_volume then false
  else if c.bid ≤ 0 ∨ c.ask ≤ 0 then false
  else
    let mid := (c.bid + c.ask) / 2
    let spread_pct := if mid > 0 then (c.ask - c.bid) / mid else 1
    decide (¬ spread_pct > cfg.max_bid_ask_spread_pct)

/-- `OptionsScreener._filter_for_liquidity`. -/
def filter_for_liquidity (cfg : ScreenerConfig)
    (contracts : List BrokerContract) : List BrokerContract :=
  contracts.filter (liquidity_ok cfg)

/-- `OptionsScreener._get_delta`: broker-provided delta when present,
else the Black-Scholes fallback (abstracted as `bsDelta`). -/
def get_delta (bsDelta : ℚ → ℚ → ℚ → ℚ → String → ℚ)
    (c : BrokerContract) (spot tte iv : ℚ) (option_type : String) : ℚ :=
  match c.delta with
  | some d => d
  | none => bsDelta spot c.strike tte iv option_type

/-- Python truthiness of an optional float (`None` and `0.0` falsy),
used by `_build_spread`'s `if short_contract.delta` test. -/
def pyTruthyQ (o : Option ℚ) : Bool :=
  match o with
  | none => false
  | some x => x ≠ 0

/-- Conversion of one broker contract inside
`OptionsScreener._build_spread`. -/
def to_core_contract (underlying : String) (exp : ℤ) (c : BrokerContract) :
    OptionContract :=
  { symbol := c.symbol
    underlying := underlying
    expiration := exp
    strike := c.strike
    option_type := c.option_type
    bid := c.bid
    ask := c.ask
    last := c.last
    volume := c.volume
    open_interest := c.open_interest
    implied_volatility := c.implied_volatility.getD 0
    greeks :=
      if pyTruthyQ c.delta then
        some { delta := c.delta.getD 0, gamma := c.gamma.getD 0,
               theta := c.theta.getD 0, vega := c.vega.getD 0 }
      else none }

/-- `OptionsScreener._build_spread`. -/
def build_spread (underlying : String) (spread_type : SpreadType)
    (short_contract long_contract : BrokerContract) (exp : ℤ) :
    CreditSpread :=
  { underlying := underlying
    spread_type := spread_type
    short_strike := short_contract.strike
    long_strike := long_contract.strike
    expiration := exp
    short_contract := to_core_contract underlying exp short_contract
    long_contract := to_core_contract underlying exp long_contract }

/-- `OptionsScreener._score_spread`.  The two variable-denominator
divisions (`credit/width` and the EV normalisation) use `pyDiv`. -/
def score_spread (spread : CreditSpread) (ivm : IVMetrics)
    (short_delta : ℚ) : Option ScoredSpread := do
  let prob_otm := 1 - |short_delta|
  let credit := spread.credit * 100
  let max_loss := spread.max_loss
  let expected_value := credit * prob_otm - max_loss * (1 - prob_otm)
  let iv_score := ivm.iv_rank / 100
  let delta_score := 1 - |(|short_delta| - 1/4)| * 4
  let cw ← pyDiv spread.credit spread.width
  let credit_score := min cw (1/2) * 2
  let ev_score ← pyDiv (max 0 expected_value) (spread.width * 100)
  let score := iv_score * (1/4) + delta_score * (1/4)
    + credit_score * (1/4) + ev_score * (1/4)
  return { spread := spread, score := score, iv_rank := ivm.iv_rank,
           expected_value := expected_value, probability_otm := prob_otm }

/-- The `(short, long)` pairs visited by the nested loops
`for i, short in enumerate(xs): for long in xs[i+1:]`. -/
def pairs_after {α : Type} : List α → List (α × α)
  | [] => []
  | s :: rest => rest.map (fun l => (s, l)) ++ pairs_after rest

/-- Body of the inner loop of `_find_bull_put_spreads` for one
`(short_put, long_put)` pair: the short-delta window check (hoisted in
the source to the outer loop), the width window, the positive-credit and
minimum-credit filters, then scoring.  `none` means the pair produced no
opportunity. -/
def process_bull_put_pair (cfg : ScreenerConfig)
    (bsDelta : ℚ → ℚ → ℚ → ℚ → String → ℚ) (underlying : String)
    (spot tte current_iv : ℚ) (ivm : IVMetrics) (exp : ℤ)
    (p : BrokerContract × BrokerContract) : Option ScoredSpread :=
  let short_delta := get_delta bsDelta p.1 spot tte current_iv "put"
  if ¬ (cfg.min_delta ≤ |short_delta| ∧ |short_delta| ≤ cfg.max_delta) then none
  else
    let width := p.1.strike - p.2.strike
    if ¬ (cfg.min_width ≤ width ∧ width ≤ cfg.max_width) then none
    else
      let spread := build_spread underlying SpreadType.bull_put p.1 p.2 exp
      if spread.credit ≤ 0 then none
      else
        (pyDiv spread.credit width).bind fun credit_pct =>
          if credit_pct < cfg.min_credit_pct then none
          else score_spread spread ivm |short_delta|

/-- Body of the inner loop of `_find_bear_call_spreads` for one
`(short_call, long_call)` pair. -/
def process_bear_call_pair (cfg : ScreenerConfig)
    (bsDelta : ℚ → ℚ → ℚ → ℚ → String → ℚ) (underlying : String)
    (spot tte current_iv : ℚ) (ivm : IVMetrics) (exp : ℤ)
    (p : BrokerContract × BrokerContract) : Option ScoredSpread :=
  let short_delta := get_delta bsDelta p.1 spot tte current_iv "call"
  if ¬ (cfg.min_delta ≤ |short_delta| ∧ |short_delta| ≤ cfg.max_delta) then none
  else
    let width := p.2.strike - p.1.strike
    if ¬ (cfg.min_width ≤ width ∧ width ≤ cfg.max_width) then none
    else
      let spread := build_spread underlying SpreadType.bear_call p.1 p.2 exp
      if spread.credit ≤ 0 then none
      else
        (pyDiv spread.credit width).bind fun credit_pct =>
          if credit_pct < cfg.min_credit_pct then none
          else score_spread spread ivm |short_delta|

/-- `OptionsScreener._find_bull_put_spreads`: liquidity filter, sort by
strike descending, enumerate short/long pairs. -/
def find_bull_put_spreads (cfg : ScreenerConfig)
    (bsDelta : ℚ → ℚ → ℚ → ℚ → String → ℚ) (today : ℤ)
    (chain : OptionsChain) (exp : ℤ) (ivm : IVMetrics) :
    List ScoredSpread :=
  let puts := filter_for_liquidity cfg (chain.get_puts exp)
  if puts.length < 2 then []
  else
    let sorted := puts.insertionSort (fun a b => b.strike ≤ a.strike)
    let tte := years_to_expiry today exp
    (pairs_after sorted).filterMap
      (process_bull_put_pair cfg bsDelta chain.underlying
        chain.underlying_price tte ivm.current_iv ivm exp)

/-- `OptionsScreener._find_bear_call_spreads`: liquidity filter, sort by
strike ascending, enumerate short/long pairs. -/
def find_bear_call_spreads (cfg : ScreenerConfig)
    (bsDelta : ℚ → ℚ → ℚ → ℚ → String → ℚ) (today : ℤ)
    (chain : OptionsChain) (exp : ℤ) (ivm : IVMetrics) :
    List ScoredSpread :=
  let calls := filter_for_liquidity cfg (chain.get_calls exp)
  if calls.length < 2 then []
  else
    let sorted := calls.insertionSort (fun a b => a.strike ≤ b.strike)
    let tte := years_to_expiry today exp
    (pairs_after sorted).filterMap
      (process_bear_call_pair cfg bsDelta chain.underlying
        chain.underlying_price tte ivm.current_iv ivm exp)

/-- `OptionsScreener.screen_chain`: IV-rank gate, DTE window on
expirations, bull-put plus bear-call enumeration, sort by score
descending. -/
def screen_chain (cfg : ScreenerConfig)
    (bsDelta : ℚ → ℚ → ℚ → ℚ → String → ℚ) (today : ℤ)
    (chain : OptionsChain) (ivm : IVMetrics) : List ScoredSpread :=
  if ¬ is_elevated_iv ivm.iv_rank cfg.min_iv_rank then []
  else
    let valid_expirations := chain.expirations.filter
      (fun e => cfg.min_dte ≤ days_to_expiry today e
        ∧ days_to_expiry today e ≤ cfg.max_dte)
    let opportunities := valid_expirations.flatMap
      (fun e => find_bull_put_spreads cfg bsDelta today chain e ivm
        ++ find_bear_call_spreads cfg bsDelta today chain e ivm)
    opportunities.insertionSort (fun a b => b.score ≤ a.score)

/-! ## Embedding of `handlers/position_monitor.py`:
`_reconcile_pending_orders`

The handler's database calls are modelled as an effect list.  The source
evaluates `TradeStatus.EXPIRED` to flip a trade to expired; that is a
Python attribute lookup on the `TradeStatus` enum of `core/types.py`,
embedded via `TradeStatus.attr`. -/

/-- The database effects per-trade reconciliation can issue. -/
inductive DbCall where
  | updateTradeStatus (trade_id : String) (st : TradeStatus)
  | markTradeFilled (trade_id : String)
  | deletePosition (trade_id : String)
  | updateDailyStats (trades_delta : ℤ)
deriving DecidableEq, Repr

/-- The `try` block of `_reconcile_pending_orders` for one trade:
fetch the broker order (`none` = the lookup raised) and dispatch on its
status.  `Except.error` is a raised exception. -/
def reconcile_try_block (t : Trade) (order : Option Order) :
    Except String (List DbCall) :=
  match order with
  | none => .error "broker order lookup failed"
  | some o =>
    match o.status with
    | .filled => .ok [DbCall.markTradeFilled t.id, DbCall.updateDailyStats 1]
    | .expired | .cancelled | .rejected =>
      match TradeStatus.attr "EXPIRED" with
      | some st => .ok [DbCall.updateTradeStatus t.id st,
                        DbCall.deletePosition t.id]
      | none => .error "AttributeError: TradeStatus has no attribute EXPIRED"
    | _ => .ok []

/-- One iteration of the loop in `_reconcile_pending_orders`: a trade
without a broker order id is marked expired outside any `try` (so an
exception there propagates); otherwise the `try` block runs and its
exceptions are swallowed (logged only). -/
def reconcile_one (t : Trade) (get_order : String → Option Order) :
    Except String (List DbCall) :=
  match t.broker_order_id with
  | none =>
    match TradeStatus.attr "EXPIRED" with
    | some st => .ok [DbCall.updateTradeStatus t.id st]
    | none => .error "AttributeError: TradeStatus has no attribute EXPIRED"
  | some oid =>
    match reconcile_try_block t (get_order oid) with
    | .ok calls => .ok calls
    | .error _ => .ok []

/-! ## Characterisations of the exit checks -/

/-- For positive entry credit, the profit-target check triggers exactly
when the close-cost has fallen to at most half the credit. -/
theorem check_profit_target_pos (c v : ℚ) (h : 0 < c) :
    check_profit_target c v =
      if v ≤ c/2 then
        { valid := true, reason := some (ExitReason.profitTarget ((c - v)/c)) }
      else { valid := false, reason := none } := by
  unfold check_profit_target PROFIT_TARGET_PCT
  rw [if_neg (not_le.mpr h)]
  have hiff : ((c - v)/c ≥ 1/2) ↔ v ≤ c/2 := by
    rw [ge_iff_le, le_div_iff₀ h]
    constructor <;> intro <;> linarith
  simp only [hiff]

/-- For positive entry credit, the stop-loss check triggers exactly when
the close-cost has risen to at least three times the credit (a loss of
at least twice the credit). -/
theorem check_stop_loss_pos (c v : ℚ) (h : 0 < c) :
    check_stop_loss c v =
      if 3*c ≤ v then
        { valid := true, reason := some (ExitReason.stopLoss ((v - c)/c)) }
      else { valid := false, reason := none } := by
  unfold check_stop_loss STOP_LOSS_PCT
  rw [if_neg (not_le.mpr h)]
  have hiff : (v - c ≥ c * 2) ↔ 3*c ≤ v := by
    constructor <;> intro <;> linarith
  simp only [hiff]

/-- The time-exit check in threshold form. -/
theorem check_time_exit_eq (today exp : ℤ) :
    check_time_exit today exp =
      if days_to_expiry today exp ≤ 21 then
        { valid := true, reason := some (ExitReason.timeExit (days_to_expiry today exp)) }
      else { valid := false, reason := none } := by
  unfold check_time_exit TIME_EXIT_DTE
  rfl

/-- C2 counterexample: the claim says the stop loss triggers exactly
when `current_value ≥ 2 × entry_credit`; at entry credit 1 and
close-cost 2 that bound holds, yet `check_stop_loss` does not
trigger. -/
theorem C2_counterexample :
    (0:ℚ) < 1 ∧ ((2:ℚ) ≥ 2 * 1) ∧ (check_stop_loss 1 2).valid = false := by
  refine ⟨by norm_num, by norm_num, ?_⟩
  rw [check_stop_loss_pos 1 2 (by norm_num)]
  norm_num

/-- C2 (amended): for every entry credit `c > 0` and close-cost `v`, the
stop-loss check triggers exactly when the loss `v − c` has reached twice
the credit, i.e. exactly when `v ≥ 3c` (300% of the entry credit, not
200%). -/
theorem C2_stop_loss_triggers_iff (c v : ℚ) (h : 0 < c) :
    (check_stop_loss c v).valid = true ↔ 3*c ≤ v := by
  rw [check_stop_loss_pos c v h]
  split_ifs with h3
  · simpa using h3
  · simpa using h3

/-- C2 witness: at credit 1 and close-cost 3 the amended threshold is
met and the check triggers. -/
theorem C2_stop_loss_triggers_iff_witness :
    (0:ℚ) < 1 ∧ ((check_stop_loss 1 3).valid = true ↔ 3*(1:ℚ) ≤ 3) :=
  ⟨by norm_num, C2_stop_loss_triggers_iff 1 3 (by norm_num)⟩

/-- C5: for positive entry credit, `check_all_exit_conditions` is the
priority-ordered first-match of profit target (`v ≤ c/2`), then stop
loss (`v ≥ 3c`), then time exit (`DTE ≤ 21`); in particular whenever the
profit-target condition holds the returned reason is the profit-target
reason, whatever the other conditions do. -/
theorem C5_exit_priority (today exp : ℤ) (c v : ℚ) (h : 0 < c) :
    check_all_exit_conditions today c v exp =
      (if v ≤ c/2 then (true, some (ExitReason.profitTarget ((c - v)/c)))
       else if 3*c ≤ v then (true, some (ExitReason.stopLoss ((v - c)/c)))
       else if days_to_expiry today exp ≤ 21 then
         (true, some (ExitReason.timeExit (days_to_expiry today exp)))
       else (false, none)) := by
  unfold check_all_exit_conditions
  rw [check_profit_target_pos c v h, check_stop_loss_pos c v h,
    check_time_exit_eq today exp]
  split_ifs <;> rfl

/-- C5 witness: with credit 1, close-cost 10, 100 days to expiry, the
stop-loss branch is selected. -/
theorem C5_exit_priority_witness :
    (0:ℚ) < 1 ∧ check_all_exit_conditions 0 1 10 100 =
      (true, some (ExitReason.stopLoss 9)) := by
  refine ⟨by norm_num, ?_⟩
  rw [C5_exit_priority 0 100 1 10 (by norm_num)]
  norm_num [days_to_expiry]

/-! ## C1: reconciliation of pending orders -/

/-- A pending-fill trade with no broker order id, as reconciliation
receives it. -/
def tradeNoOrderId : Trade :=
  { id := "t1", recommendation_id := none, status := "pending_fill",
    underlying := "SPY", spread_type := .bull_put, short_strike := 100,
    long_strike := 95, expiration := 40, entry_credit := 1, contracts := 1,
    broker_order_id := none }

/-- A pending-fill trade whose broker order was cancelled. -/
def tradeCancelledOrder : Trade :=
  { id := "t2", recommendation_id := none, status := "pending_fill",
    underlying := "SPY", spread_type := .bull_put, short_strike := 100,
    long_strike := 95, expiration := 40, entry_credit := 1, contracts := 1,
    broker_order_id := some "o2" }

/-- Broker order lookup returning a cancelled order for `"o2"`. -/
def getOrderCancelled (oid : String) : Option Order :=
  if oid = "o2" then some { id := "o2", status := .cancelled } else none

/-- C1: the claim says an id-less pending trade is immediately marked
expired, and a cancelled order flips the trade to expired.  In the code
both paths evaluate `TradeStatus.EXPIRED`, which does not exist in the
`TradeStatus` enum of `core/types.py` (it has only `OPEN` and `CLOSED`),
so the id-less path raises an uncaught `AttributeError` and the
cancelled path swallows the error and issues no status change at
all — the trade is never marked expired. -/
theorem C1_reconcile_expired_is_unreachable :
    reconcile_one tradeNoOrderId (fun _ => none) =
      .error "AttributeError: TradeStatus has no attribute EXPIRED"
    ∧ reconcile_one tradeCancelledOrder getOrderCancelled = .ok []
    ∧ TradeStatus.attr "EXPIRED" = none := by
  refine ⟨rfl, rfl, rfl⟩

/-! ## C6: degenerate Greeks -/

/-- C6: the claim says the Greeks are degenerate (and in particular no
division by zero occurs) whenever `T ≤ 0` or `σ ≤ 0`.  The code's
degenerate branch tests only `T ≤ 0`: with `T = 1/4 > 0` and `σ = 0` the
Black-Scholes branch runs and the gamma computation divides by
`spot·σ·√T = 0`, raising `ZeroDivisionError` — for every interpretation
of the `math` primitives. -/
theorem C6_sigma_zero_divides_by_zero (m : PyMath) :
    calculate_greeks m 100 100 (1/4) 0 (1/20) "call" = none := by
  by_cases h2 : m.sqrt 2 = 0 <;> by_cases hp : m.sqrt (2 * m.pi) = 0 <;>
    norm_num [calculate_greeks, calculate_d1_d2, norm_cdf, norm_pdf, pyDiv,
      h2, hp]

/-! ## Position-sizer evaluation lemmas -/

set_option maxHeartbeats 1600000

/-- `calculate_size_core` short-circuits with the invalid-spread reason
whenever the spread's `max_loss` is non-positive, before any cap is
computed. -/
theorem calculate_size_core_invalid (limits : RiskLimits)
    (spread : CreditSpread) (e : ℚ) (pos : List Position) (vix : Option ℚ)
    (h : spread.max_loss ≤ 0) :
    calculate_size_core limits spread e pos vix =
      some { contracts := 0, risk_amount := 0, risk_percent := 0,
             reason := some SizeReason.invalidSpread } := by
  unfold calculate_size_core
  by_cases he : e > 0
  · simp only [he, pyDiv_ne_zero (ne_of_gt he), h, if_true, ite_true,
      Option.bind_eq_bind, Option.some_bind, Option.pure_def]
  · simp only [he, h, if_false, ite_false, ite_true,
      Option.bind_eq_bind, Option.some_bind, Option.pure_def]

/-- `calculate_size_core` never raises: every division it performs has a
nonzero denominator. -/
theorem calculate_size_core_ne_none (limits : RiskLimits)
    (spread : CreditSpread) (e : ℚ) (pos : List Position) (vix : Option ℚ) :
    calculate_size_core limits spread e pos vix ≠ none := by
  by_cases hr : spread.max_loss ≤ 0
  · rw [calculate_size_core_invalid limits spread e pos vix hr]
    simp
  · have hrne : spread.max_loss ≠ 0 := fun h => hr (le_of_eq h)
    unfold calculate_size_core
    by_cases he : e > 0
    · simp only [he, hr, pyDiv_ne_zero (ne_of_gt he), pyDiv_ne_zero hrne,
        if_true, if_false, ite_true, ite_false, Option.bind_eq_bind,
        Option.some_bind, Option.pure_def]
      simp
    · simp only [he, hr, pyDiv_ne_zero hrne, if_true, if_false, ite_true,
        ite_false, Option.bind_eq_bind, Option.some_bind, Option.pure_def]
      simp

/-- A spread with credit at least the width (no per-contract risk):
short leg mid 10, long leg mid 0, strikes 100/95, so `max_loss < 0`. -/
def spreadNoRisk : CreditSpread :=
  { underlying := "SPY", spread_type := .bull_put, short_strike := 100,
    long_strike := 95, expiration := 40,
    short_contract :=
      { symbol := "S1", underlying := "SPY", expiration := 40, strike := 100,
        option_type := "put", bid := 10, ask := 10, last := 10, volume := 100,
        open_interest := 500, implied_volatility := 1/5 },
    long_contract :=
      { symbol := "S2", underlying := "SPY", expiration := 40, strike := 95,
        option_type := "put", bid := 0, ask := 0, last := 0, volume := 100,
        open_interest := 500, implied_volatility := 1/5 } }

/-- C10 counterexample: the claim says every call on a no-risk spread
returns the reason "Invalid spread: no risk calculated"; with VIX 55 the
extreme-VIX hard stop returns first, with the VIX reason instead. -/
theorem C10_counterexample :
    spreadNoRisk.max_loss ≤ 0 ∧
    calculate_size {} spreadNoRisk 100000 [] (some 55) =
      some { contracts := 0, risk_amount := 0, risk_percent := 0,
             reason := some (SizeReason.vixExtreme 55 50) } := by
  constructor
  · norm_num [spreadNoRisk, CreditSpread.max_loss, CreditSpread.width,
      CreditSpread.credit]
  · norm_num [calculate_size]

/-- C10 (amended): `calculate_size` never divides by a zero or negative
risk-per-contract (it always returns a result), and on a spread with
non-positive `max_loss` it returns zero contracts with the
invalid-spread reason — unless the extreme-VIX hard stop already
returned zero contracts with its own reason. -/
theorem C10_no_risk_guard (limits : RiskLimits) (spread : CreditSpread)
    (e : ℚ) (pos : List Position) (vix : Option ℚ) :
    calculate_size limits spread e pos vix ≠ none ∧
    (spread.max_loss ≤ 0 →
      calculate_size limits spread e pos vix =
        some { contracts := 0, risk_amount := 0, risk_percent := 0,
               reason := some SizeReason.invalidSpread }
      ∨ ∃ v, vix = some v ∧ limits.extreme_vix_threshold ≤ v ∧
          calculate_size limits spread e pos vix =
            some { contracts := 0, risk_amount := 0, risk_percent := 0,
                   reason := some (SizeReason.vixExtreme v
                     limits.extreme_vix_threshold) }) := by
  unfold calculate_size
  match vix with
  | some v =>
    by_cases hv : v ≥ limits.extreme_vix_threshold
    · simp only [hv, if_pos]
      exact ⟨by simp, fun h => Or.inr ⟨v, rfl, hv, rfl⟩⟩
    · simp only [hv, if_neg, if_false]
      exact ⟨calculate_size_core_ne_none limits spread e pos (some v),
        fun h => Or.inl (calculate_size_core_invalid limits spread e pos (some v) h)⟩
  | none =>
    exact ⟨calculate_size_core_ne_none limits spread e pos none,
      fun h => Or.inl (calculate_size_core_invalid limits spread e pos none h)⟩

/-- C10 witness: a no-risk spread with no VIX supplied takes the
invalid-spread branch. -/
theorem C10_no_risk_guard_witness :
    calculate_size {} spreadNoRisk 100000 [] none ≠ none ∧
    (calculate_size {} spreadNoRisk 100000 [] none =
        some { contracts := 0, risk_amount := 0, risk_percent := 0,
               reason := some SizeReason.invalidSpread }
      ∨ ∃ v, (none : Option ℚ) = some v ∧ (50:ℚ) ≤ v ∧
          calculate_size {} spreadNoRisk 100000 [] none =
            some { contracts := 0, risk_amount := 0, risk_percent := 0,
                   reason := some (SizeReason.vixExtreme v 50) }) := by
  have h := C10_no_risk_guard {} spreadNoRisk 100000 [] none
  refine ⟨h.1, ?_⟩
  exact h.2 (by norm_num [spreadNoRisk, CreditSpread.max_loss,
    CreditSpread.width, CreditSpread.credit])

/-! ## C3: the high-VIX adjustment -/

/-- A normal bull-put spread: credit 1, width 5, so `max_loss = 400`. -/
def spreadW5 : CreditSpread :=
  { underlying := "SPY", spread_type := .bull_put, short_strike := 100,
    long_strike := 95, expiration := 40,
    short_contract :=
      { symbol := "S3", underlying := "SPY", expiration := 40, strike := 100,
        option_type := "put", bid := 1, ask := 1, last := 1, volume := 100,
        open_interest := 500, implied_volatility := 1/5 },
    long_contract :=
      { symbol := "S4", underlying := "SPY", expiration := 40, strike := 95,
        option_type := "put", bid := 0, ask := 0, last := 0, volume := 100,
        open_interest := 500, implied_volatility := 1/5 } }

/-- An open position consuming 9800 of heat. -/
def posHeat : Position :=
  { id := "p1", trade_id := "t1", underlying := "SPY", short_strike := 100,
    long_strike := 95, expiration := 40, contracts := 5,
    current_value := 9800, unrealized_pnl := 0, updated_at := 0 }

/-- C3: with equity 100000, 9800 of heat already open (so the heat cap
allows 0 contracts of a 400-risk spread) and VIX 45 in the high window,
the claim says the result is 0 contracts; the code's VIX adjustment
`max(1, int(0 × 0.25))` bumps the 0 to 1 contract, returned with the
heat-limit reason still attached. -/
theorem C3_high_vix_bumps_zero_cap_to_one :
    calculate_size {} spreadW5 100000 [posHeat] (some 45) =
      some { contracts := 1, risk_amount := 400, risk_percent := 1/250,
             reason := some (SizeReason.heatLimitReached (49/500) (1/10)) } := by
  norm_num [calculate_size, calculate_size_core, pyDiv, pyTrunc, spreadW5,
    posHeat, CreditSpread.max_loss, CreditSpread.width, CreditSpread.credit,
    max_def, min_def]

/-! ## C9: closed form of the contract count and monotonicity -/

/-- The `max(0, min(...))` of the three sizing caps in
`calculate_size`. -/
def caps_contracts (limits : RiskLimits) (spread : CreditSpread) (e : ℚ)
    (pos : List Position) : ℤ :=
  let heat := (pos.map (fun p => |p.current_value|)).sum
  max 0 (min (pyTrunc (e * limits.max_risk_per_trade_pct / spread.max_loss))
    (min (pyTrunc (e * limits.max_single_position_pct / spread.max_loss))
      (pyTrunc (max 0 (e * limits.max_heat_pct - heat) / spread.max_loss))))

/-- The high-VIX reduction step applied to a contract count. -/
def vix_adjust (limits : RiskLimits) (vix : Option ℚ) (c : ℤ) : ℤ :=
  match vix with
  | some v =>
    if v ≥ limits.high_vix_threshold then
      max 1 (pyTrunc ((c : ℚ) * (1 - limits.high_vix_reduction)))
    else c
  | none => c

/-- The final `max(1, …)` floor applied when any contracts remain. -/
def floor_one_if_positive (c : ℤ) : ℤ :=
  if c > 0 then max 1 c else c

/-- The contract count `calculate_size` returns, in closed form. -/
def size_contracts (limits : RiskLimits) (spread : CreditSpread) (e : ℚ)
    (pos : List Position) (vix : Option ℚ) : ℤ :=
  match vix with
  | some v =>
    if v ≥ limits.extreme_vix_threshold then 0
    else if spread.max_loss ≤ 0 then 0
    else floor_one_if_positive
      (vix_adjust limits (some v) (caps_contracts limits spread e pos))
  | none =>
    if spread.max_loss ≤ 0 then 0
    else floor_one_if_positive
      (vix_adjust limits none (caps_contracts limits spread e pos))

/-- The contract count of `calculate_size_core` on a risky spread is the
VIX-adjusted, floored cap minimum. -/
theorem calculate_size_core_contracts (limits : RiskLimits)
    (spread : CreditSpread) (e : ℚ) (pos : List Position) (vix : Option ℚ)
    (hr : ¬ spread.max_loss ≤ 0) :
    (calculate_size_core limits spread e pos vix).map
        PositionSizeResult.contracts =
      some (floor_one_if_positive
        (vix_adjust limits vix (caps_contracts limits spread e pos))) := by
  have hrne : spread.max_loss ≠ 0 := fun h => hr (le_of_eq h)
  unfold calculate_size_core caps_contracts vix_adjust floor_one_if_positive
  cases vix with
  | none =>
    by_cases he : e > 0
    · simp only [he, hr, pyDiv_ne_zero (ne_of_gt he), pyDiv_ne_zero hrne,
        if_true, if_false, ite_true, ite_false, Option.bind_eq_bind,
        Option.some_bind, Option.map_some', Option.pure_def]
    · simp only [he, hr, pyDiv_ne_zero hrne, if_true, if_false, ite_true,
        ite_false, Option.bind_eq_bind, Option.some_bind, Option.map_some', Option.pure_def]
  | some v =>
    by_cases hv : v ≥ limits.high_vix_threshold
    · by_cases he : e > 0
      · simp only [he, hr, hv, pyDiv_ne_zero (ne_of_gt he),
          pyDiv_ne_zero hrne, if_true, if_false, ite_true, ite_false,
          Option.bind_eq_bind, Option.some_bind, Option.map_some', Option.pure_def]
      · simp only [he, hr, hv, pyDiv_ne_zero hrne, if_true, if_false,
          ite_true, ite_false, Option.bind_eq_bind, Option.some_bind,
          Option.map_some', Option.pure_def]
    · by_cases he : e > 0
      · simp only [he, hr, hv, pyDiv_ne_zero (ne_of_gt he),
          pyDiv_ne_zero hrne, if_true, if_false, ite_true, ite_false,
          Option.bind_eq_bind, Option.some_bind, Option.map_some', Option.pure_def]
      · simp only [he, hr, hv, pyDiv_ne_zero hrne, if_true, if_false,
          ite_true, ite_false, Option.bind_eq_bind, Option.some_bind,
          Option.map_some', Option.pure_def]

/-- The contract count of `calculate_size`, in closed form. -/
theorem calculate_size_contracts (limits : RiskLimits)
    (spread : CreditSpread) (e : ℚ) (pos : List Position) (vix : Option ℚ) :
    (calculate_size limits spread e pos vix).map PositionSizeResult.contracts =
      some (size_contracts limits spread e pos vix) := by
  unfold calculate_size size_contracts
  cases vix with
  | none =>
    dsimp only
    by_cases hr : spread.max_loss ≤ 0
    · rw [calculate_size_core_invalid _ _ _ _ _ hr]
      simp [hr]
    · rw [if_neg hr, calculate_size_core_contracts _ _ _ _ _ hr]
  | some v =>
    dsimp only
    by_cases hx : v ≥ limits.extreme_vix_threshold
    · simp [hx]
    · by_cases hr : spread.max_loss ≤ 0
      · rw [if_neg hx, if_neg hx, calculate_size_core_invalid _ _ _ _ _ hr]
        simp [hr]
      · rw [if_neg hx, if_neg hx, if_neg hr,
          calculate_size_core_contracts _ _ _ _ _ hr]

theorem pyTrunc_nonpos {a : ℚ} (h : a ≤ 0) : pyTrunc a ≤ 0 := by
  unfold pyTrunc
  by_cases h0 : 0 ≤ a
  · simp only [h0, if_pos]
    exact Int.floor_nonpos h
  · simp only [h0, if_neg, ite_false]
    exact Int.ceil_le.mpr (by exact_mod_cast h)

theorem caps_contracts_nonneg (limits : RiskLimits) (spread : CreditSpread)
    (e : ℚ) (pos : List Position) :
    0 ≤ caps_contracts limits spread e pos :=
  le_max_left 0 _

theorem caps_contracts_mono (limits : RiskLimits) (spread : CreditSpread)
    (pos : List Position) (hr : 0 < spread.max_loss)
    (h1 : 0 ≤ limits.max_risk_per_trade_pct)
    (h2 : 0 ≤ limits.max_single_position_pct)
    (h3 : 0 ≤ limits.max_heat_pct)
    {e1 e2 : ℚ} (he : e1 ≤ e2) :
    caps_contracts limits spread e1 pos ≤ caps_contracts limits spread e2 pos := by
  unfold caps_contracts
  have hd : ∀ a b : ℚ, a ≤ b →
      pyTrunc (a / spread.max_loss) ≤ pyTrunc (b / spread.max_loss) :=
    fun a b hab => pyTrunc_mono (by exact div_le_div_of_nonneg_right hab hr.le)
  refine max_le_max le_rfl (min_le_min ?_ (min_le_min ?_ ?_))
  · exact hd _ _ (mul_le_mul_of_nonneg_right he h1)
  · exact hd _ _ (mul_le_mul_of_nonneg_right he h2)
  · refine hd _ _ (max_le_max le_rfl ?_)
    have := mul_le_mul_of_nonneg_right he h3
    linarith

theorem vix_adjust_nonneg (limits : RiskLimits) (vix : Option ℚ) {c : ℤ}
    (hc : 0 ≤ c) : 0 ≤ vix_adjust limits vix c := by
  unfold vix_adjust
  cases vix with
  | none => exact hc
  | some v =>
    by_cases hv : v ≥ limits.high_vix_threshold
    · simp only [hv, if_pos]
      exact le_trans zero_le_one (le_max_left 1 _)
    · simpa [hv] using hc

theorem vix_adjust_mono (limits : RiskLimits) (vix : Option ℚ) {c d : ℤ}
    (hc : 0 ≤ c) (h : c ≤ d) :
    vix_adjust limits vix c ≤ vix_adjust limits vix d := by
  unfold vix_adjust
  cases vix with
  | none => exact h
  | some v =>
    by_cases hv : v ≥ limits.high_vix_threshold
    · simp only [hv, if_pos]
      by_cases hq : (0:ℚ) ≤ 1 - limits.high_vix_reduction
      · refine max_le_max le_rfl (pyTrunc_mono ?_)
        exact mul_le_mul_of_nonneg_right (by exact_mod_cast h) hq
      · have hd : 0 ≤ d := le_trans hc h
        have k1 : pyTrunc ((c:ℚ) * (1 - limits.high_vix_reduction)) ≤ 0 :=
          pyTrunc_nonpos (mul_nonpos_iff.mpr (Or.inl
            ⟨by exact_mod_cast hc, le_of_not_le hq⟩))
        have k2 : pyTrunc ((d:ℚ) * (1 - limits.high_vix_reduction)) ≤ 0 :=
          pyTrunc_nonpos (mul_nonpos_iff.mpr (Or.inl
            ⟨by exact_mod_cast hd, le_of_not_le hq⟩))
        rw [max_eq_left (le_trans k1 Int.one_nonneg),
          max_eq_left (le_trans k2 Int.one_nonneg)]
    · simpa [hv] using h

theorem floor_one_nonneg {c : ℤ} (hc : 0 ≤ c) :
    0 ≤ floor_one_if_positive c := by
  unfold floor_one_if_positive
  by_cases h : c > 0
  · simp only [h, if_pos]
    exact le_trans zero_le_one (le_max_left 1 c)
  · simpa [h] using hc

theorem floor_one_mono {c d : ℤ} (h : c ≤ d) :
    floor_one_if_positive c ≤ floor_one_if_positive d := by
  unfold floor_one_if_positive
  by_cases hc : c > 0
  · have hd : d > 0 := lt_of_lt_of_le hc h
    simp only [hc, hd, if_pos]
    exact max_le_max le_rfl h
  · by_cases hd : d > 0
    · simp only [hc, hd, if_pos, if_neg, ite_false]
      exact le_trans (by omega) (le_max_left 1 d)
    · simpa [hc, hd] using h

theorem size_contracts_nonneg (limits : RiskLimits) (spread : CreditSpread)
    (e : ℚ) (pos : List Position) (vix : Option ℚ) :
    0 ≤ size_contracts limits spread e pos vix := by
  unfold size_contracts
  cases vix with
  | none =>
    by_cases hr : spread.max_loss ≤ 0
    · simp [hr]
    · simp only [hr, if_neg, ite_false]
      exact floor_one_nonneg (vix_adjust_nonneg _ _ (caps_contracts_nonneg _ _ _ _))
  | some v =>
    by_cases hx : v ≥ limits.extreme_vix_threshold
    · simp [hx]
    · by_cases hr : spread.max_loss ≤ 0
      · simp [hx, hr]
      · simp only [hx, hr, if_neg, ite_false]
        exact floor_one_nonneg (vix_adjust_nonneg _ _ (caps_contracts_nonneg _ _ _ _))

theorem size_contracts_mono (limits : RiskLimits) (spread : CreditSpread)
    (pos : List Position) (vix : Option ℚ)
    (h1 : 0 ≤ limits.max_risk_per_trade_pct)
    (h2 : 0 ≤ limits.max_single_position_pct)
    (h3 : 0 ≤ limits.max_heat_pct)
    {e1 e2 : ℚ} (he : e1 ≤ e2) :
    size_contracts limits spread e1 pos vix ≤
      size_contracts limits spread e2 pos vix := by
  unfold size_contracts
  cases vix with
  | none =>
    by_cases hr : spread.max_loss ≤ 0
    · simp [hr]
    · simp only [hr, if_neg, ite_false]
      exact floor_one_mono (vix_adjust_mono _ _ (caps_contracts_nonneg _ _ _ _)
        (caps_contracts_mono _ _ _ (lt_of_not_le hr) h1 h2 h3 he))
  | some v =>
    by_cases hx : v ≥ limits.extreme_vix_threshold
    · simp [hx]
    · by_cases hr : spread.max_loss ≤ 0
      · simp [hx, hr]
      · simp only [hx, hr, if_neg, ite_false]
        exact floor_one_mono (vix_adjust_mono _ _ (caps_contracts_nonneg _ _ _ _)
          (caps_contracts_mono _ _ _ (lt_of_not_le hr) h1 h2 h3 he))

/-- C9: with the spread, the open positions and the VIX held fixed (and
the configured percentages non-negative, as they are by default),
`calculate_size` returns a non-negative contract count, and increasing
the account equity never decreases it. -/
theorem C9_sizer_monotone_nonneg (limits : RiskLimits)
    (spread : CreditSpread) (pos : List Position) (vix : Option ℚ)
    (h1 : 0 ≤ limits.max_risk_per_trade_pct)
    (h2 : 0 ≤ limits.max_single_position_pct)
    (h3 : 0 ≤ limits.max_heat_pct)
    (e1 e2 : ℚ) (he : e1 ≤ e2) (r1 r2 : PositionSizeResult)
    (hr1 : calculate_size limits spread e1 pos vix = some r1)
    (hr2 : calculate_size limits spread e2 pos vix = some r2) :
    0 ≤ r1.contracts ∧ r1.contracts ≤ r2.contracts := by
  have k1 := calculate_size_contracts limits spread e1 pos vix
  have k2 := calculate_size_contracts limits spread e2 pos vix
  rw [hr1, Option.map_some'] at k1
  rw [hr2, Option.map_some'] at k2
  have e1k : r1.contracts = size_contracts limits spread e1 pos vix :=
    Option.some.inj k1
  have e2k : r2.contracts = size_contracts limits spread e2 pos vix :=
    Option.some.inj k2
  rw [e1k, e2k]
  exact ⟨size_contracts_nonneg _ _ _ _ _,
    size_contracts_mono _ _ _ _ h1 h2 h3 he⟩

/-- C9 witness: the default limits, a 400-risk spread, no open
positions; equity 100000 gives 5 contracts and equity 200000 gives
10. -/
theorem C9_sizer_monotone_nonneg_witness :
    0 ≤ ({ contracts := 5, risk_amount := 2000, risk_percent := 1/50,
           reason := none } : PositionSizeResult).contracts ∧
    ({ contracts := 5, risk_amount := 2000, risk_percent := 1/50,
       reason := none } : PositionSizeResult).contracts ≤
      ({ contracts := 10, risk_amount := 4000, risk_percent := 1/50,
         reason := none } : PositionSizeResult).contracts := by
  have hx1 : calculate_size {} spreadW5 100000 [] none =
      some { contracts := 5, risk_amount := 2000, risk_percent := 1/50,
             reason := none } := by
    norm_num [calculate_size, calculate_size_core, pyDiv, pyTrunc, spreadW5,
      CreditSpread.max_loss, CreditSpread.width, CreditSpread.credit,
      max_def, min_def]
  have hx2 : calculate_size {} spreadW5 200000 [] none =
      some { contracts := 10, risk_amount := 4000, risk_percent := 1/50,
             reason := none } := by
    norm_num [calculate_size, calculate_size_core, pyDiv, pyTrunc, spreadW5,
      CreditSpread.max_loss, CreditSpread.width, CreditSpread.credit,
      max_def, min_def]
  exact C9_sizer_monotone_nonneg {} spreadW5 [] none (by norm_num)
    (by norm_num) (by norm_num) 100000 200000 (by norm_num) _ _ hx1 hx2

/-! ## C4: `evaluate_all` selects the most restrictive state -/

theorem worst_step_mult_le_left (w s : RiskState) :
    (worst_step w s).size_multiplier ≤ w.size_multiplier := by
  unfold worst_step
  split_ifs with h1 h2
  · exact le_of_lt h1
  · exact le_of_eq h2.1
  · exact le_rfl

theorem worst_step_mult_le_right (w s : RiskState) :
    (worst_step w s).size_multiplier ≤ s.size_multiplier := by
  unfold worst_step
  split_ifs with h1 h2
  · exact le_rfl
  · exact le_rfl
  · exact le_of_not_lt h1

theorem worst_step_cases (w s : RiskState) :
    worst_step w s = w ∨ worst_step w s = s := by
  unfold worst_step
  split_ifs
  · exact Or.inr rfl
  · exact Or.inr rfl
  · exact Or.inl rfl

theorem foldl_worst_mult_le_init (l : List RiskState) :
    ∀ init : RiskState,
      (l.foldl worst_step init).size_multiplier ≤ init.size_multiplier := by
  induction l with
  | nil => intro init; exact le_rfl
  | cons a t ih =>
    intro init
    simp only [List.foldl_cons]
    exact le_trans (ih (worst_step init a)) (worst_step_mult_le_left init a)

theorem foldl_worst_mult_le_mem (l : List RiskState) :
    ∀ (init s : RiskState), s ∈ l →
      (l.foldl worst_step init).size_multiplier ≤ s.size_multiplier := by
  induction l with
  | nil => intro init s hs; exact absurd hs (List.not_mem_nil s)
  | cons a t ih =>
    intro init s hs
    simp only [List.foldl_cons]
    rcases List.mem_cons.mp hs with rfl | hs'
    · exact le_trans (foldl_worst_mult_le_init t (worst_step init s))
        (worst_step_mult_le_right init s)
    · exact ih (worst_step init a) s hs'

theorem foldl_worst_mem (l : List RiskState) :
    ∀ init : RiskState,
      (l.foldl worst_step init) ∈ l ∨ (l.foldl worst_step init) = init := by
  induction l with
  | nil => intro init; exact Or.inr rfl
  | cons a t ih =>
    intro init
    simp only [List.foldl_cons]
    rcases ih (worst_step init a) with h | h
    · exact Or.inl (List.mem_cons_of_mem a h)
    · rcases worst_step_cases init a with h2 | h2
      · exact Or.inr (h.trans h2)
      · refine Or.inl ?_
        rw [h, h2]
        exact List.mem_cons_self a t

theorem foldl_worst_alert_keep (l : List RiskState) :
    ∀ init : RiskState, init.should_alert = true →
      (l.foldl worst_step init).size_multiplier = init.size_multiplier →
      (l.foldl worst_step init).should_alert = true := by
  induction l with
  | nil => intro init h _; exact h
  | cons a t ih =>
    intro init hal hmult
    simp only [List.foldl_cons] at hmult ⊢
    have hle1 : (t.foldl worst_step (worst_step init a)).size_multiplier ≤
        (worst_step init a).size_multiplier := foldl_worst_mult_le_init t _
    have hle2 : (worst_step init a).size_multiplier ≤ init.size_multiplier :=
      worst_step_mult_le_left init a
    have heq : (worst_step init a).size_multiplier = init.size_multiplier :=
      le_antisymm hle2 (hmult ▸ hle1)
    have halt' : (worst_step init a).should_alert = true := by
      unfold worst_step at heq ⊢
      split_ifs at heq ⊢ with h1 h2
      · exact absurd (heq ▸ h1) (lt_irrefl _)
      · exact absurd hal h2.2.2
      · exact hal
    exact ih (worst_step init a) halt' (hmult.trans heq.symm)

theorem foldl_worst_alert (l : List RiskState) :
    ∀ (init s : RiskState), s ∈ l →
      s.size_multiplier = (l.foldl worst_step init).size_multiplier →
      s.should_alert = true →
      (l.foldl worst_step init).should_alert = true := by
  induction l with
  | nil => intro init s hs; exact absurd hs (List.not_mem_nil s)
  | cons a t ih =>
    intro init s hs hmult halert
    simp only [List.foldl_cons] at hmult ⊢
    rcases List.mem_cons.mp hs with rfl | hs'
    · have hle1 : (t.foldl worst_step (worst_step init s)).size_multiplier ≤
          (worst_step init s).size_multiplier := foldl_worst_mult_le_init t _
      have hle2 : (worst_step init s).size_multiplier ≤ s.size_multiplier :=
        worst_step_mult_le_right init s
      have heq : (worst_step init s).size_multiplier = s.size_multiplier :=
        le_antisymm hle2 (hmult ▸ hle1)
      have hstep_alert : (worst_step init s).should_alert = true := by
        unfold worst_step at heq ⊢
        split_ifs at heq ⊢ with h1 h2
        · exact halert
        · exact halert
        · by_contra h'
          exact h2 ⟨heq.symm, halert, fun hh => h' hh⟩
      exact foldl_worst_alert_keep t (worst_step init s) hstep_alert
        ((heq.trans hmult).symm)
    · exact ih (worst_step init a) s hs' hmult halert

/-- Every factor state that reports a halt carries a non-empty reason
string (so `evaluate_all` will persist the trip). -/
def reason_ok (s : RiskState) : Prop :=
  s.level = RiskLevel.halted → pyTruthy s.reason = true

theorem reason_ok_daily (cfg : GraduatedConfig) (a b : ℚ) :
    reason_ok (evaluate_daily_risk cfg a b) := by
  unfold reason_ok evaluate_daily_risk
  dsimp only
  split_ifs <;>
    simp [pyTruthy, CircuitBreakerReason.DAILY_HALT, RiskState.normalState]

theorem reason_ok_weekly (cfg : GraduatedConfig) (a b : ℚ) :
    reason_ok (evaluate_weekly_risk cfg a b) := by
  unfold reason_ok evaluate_weekly_risk
  dsimp only
  split_ifs <;>
    simp [pyTruthy, CircuitBreakerReason.WEEKLY_HALT, RiskState.normalState]

theorem reason_ok_drawdown (cfg : GraduatedConfig) (a b : ℚ) :
    reason_ok (evaluate_drawdown_risk cfg a b) := by
  unfold reason_ok evaluate_drawdown_risk
  dsimp only
  split_ifs <;>
    simp [pyTruthy, CircuitBreakerReason.DRAWDOWN_HALT, RiskState.haltedState,
      RiskState.normalState]

theorem reason_ok_rapid (cfg : GraduatedConfig) (a b : ℚ) :
    reason_ok (evaluate_rapid_loss cfg a b) := by
  unfold reason_ok evaluate_rapid_loss
  dsimp only
  split_ifs <;>
    simp [pyTruthy, CircuitBreakerReason.RAPID_LOSS, RiskState.normalState]

theorem reason_ok_vix (cfg : GraduatedConfig) (v : ℚ) :
    reason_ok (evaluate_vix_risk cfg v) := by
  unfold reason_ok evaluate_vix_risk
  split_ifs <;>
    simp [pyTruthy, CircuitBreakerReason.VIX_HALT, RiskState.normalState]

theorem reason_ok_staleness (cfg : GraduatedConfig) (a b : ℚ) :
    reason_ok (check_data_staleness cfg a b) := by
  unfold reason_ok check_data_staleness
  dsimp only
  split_ifs <;>
    simp [pyTruthy, CircuitBreakerReason.STALE_DATA, RiskState.haltedState,
      RiskState.normalState]

theorem states_reason_ok (cfg : GraduatedConfig) (kv : KVState) (now : ℚ)
    (sd sw pk cur : ℚ) (vix lq : Option ℚ) :
    ∀ s ∈ evaluate_states cfg kv now sd sw pk cur vix lq, reason_ok s := by
  intro s hs
  unfold evaluate_states at hs
  simp only [List.mem_append, List.mem_cons, List.not_mem_nil, or_false] at hs
  rcases hs with ((h | h | h | h) | h) | h
  · exact h ▸ reason_ok_drawdown cfg pk cur
  · exact h ▸ reason_ok_daily cfg sd cur
  · exact h ▸ reason_ok_weekly cfg sw cur
  · exact h ▸ reason_ok_rapid cfg kv.rapid_loss_amount cur
  · cases hv : vix with
    | none => rw [hv] at h; exact absurd h (List.not_mem_nil s)
    | some v =>
      rw [hv] at h
      simp only [List.mem_singleton] at h
      exact h ▸ reason_ok_vix cfg v
  · cases hl : lq with
    | none => rw [hl] at h; exact absurd h (List.not_mem_nil s)
    | some t =>
      rw [hl] at h
      simp only [List.mem_singleton] at h
      exact h ▸ reason_ok_staleness cfg t now

theorem worst_state_of_le_mem (S : List RiskState) (s : RiskState)
    (hs : s ∈ S) :
    (worst_state_of S).size_multiplier ≤ s.size_multiplier :=
  foldl_worst_mult_le_mem S RiskState.normalState s hs

theorem worst_state_of_mem (S : List RiskState) :
    worst_state_of S ∈ S ∨ worst_state_of S = RiskState.normalState :=
  foldl_worst_mem S RiskState.normalState

theorem worst_state_of_alert (S : List RiskState) (s : RiskState)
    (hs : s ∈ S)
    (hm : s.size_multiplier = (worst_state_of S).size_multiplier)
    (ha : s.should_alert = true) :
    (worst_state_of S).should_alert = true :=
  foldl_worst_alert S RiskState.normalState s hs hm ha

theorem pyTruthy_getD {o : Option String} (h : pyTruthy o = true) :
    some (o.getD "") = o := by
  cases o with
  | none => simp [pyTruthy] at h
  | some s => simp

/-- C4: `evaluate_all` short-circuits to a halted state when the durable
flag is set (leaving the store untouched); otherwise the returned state
has the numerically lowest size multiplier among the evaluated factor
states (and is one of them, or the initial normal state), ties are
broken in favour of an alerting state, and whenever the selected state
is halted the trip is persisted to the store with its reason and the
current timestamp. -/
theorem C4_evaluate_all_most_restrictive (cfg : GraduatedConfig)
    (kv : KVState) (now sd sw pk cur : ℚ) (vix lq : Option ℚ)
    (st : RiskState) (kv2 : KVState)
    (h : evaluate_all cfg kv now sd sw pk cur vix lq = (st, kv2)) :
    (kv.circuit_breaker.halted = true →
      st.level = RiskLevel.halted ∧ kv2 = kv) ∧
    (kv.circuit_breaker.halted = false →
      (∀ s ∈ evaluate_states cfg kv now sd sw pk cur vix lq,
        st.size_multiplier ≤ s.size_multiplier) ∧
      (st ∈ evaluate_states cfg kv now sd sw pk cur vix lq ∨
        st = RiskState.normalState) ∧
      (∀ s ∈ evaluate_states cfg kv now sd sw pk cur vix lq,
        s.size_multiplier = st.size_multiplier → s.should_alert = true →
        st.should_alert = true) ∧
      (st.level = RiskLevel.halted →
        kv2.circuit_breaker =
          { halted := true, reason := st.reason,
            triggered_at := some now })) := by
  unfold evaluate_all at h
  simp only [] at h
  by_cases hh : kv.circuit_breaker.halted
  · rw [if_pos hh] at h
    have hst := congrArg Prod.fst h
    have hkv := congrArg Prod.snd h
    simp only at hst hkv
    constructor
    · intro _
      refine ⟨?_, hkv.symm⟩
      rw [← hst]
      rfl
    · intro hfalse
      rw [hfalse] at hh
      exact absurd hh (by simp)
  · rw [if_neg hh] at h
    have hmain : (kv.circuit_breaker.halted = false →
        (∀ s ∈ evaluate_states cfg kv now sd sw pk cur vix lq,
          st.size_multiplier ≤ s.size_multiplier) ∧
        (st ∈ evaluate_states cfg kv now sd sw pk cur vix lq ∨
          st = RiskState.normalState) ∧
        (∀ s ∈ evaluate_states cfg kv now sd sw pk cur vix lq,
          s.size_multiplier = st.size_multiplier → s.should_alert = true →
          st.should_alert = true) ∧
        (st.level = RiskLevel.halted →
          kv2.circuit_breaker =
            { halted := true, reason := st.reason,
              triggered_at := some now })) := by
      intro _
      set S := evaluate_states cfg kv now sd sw pk cur vix lq with hS
      by_cases ht : (worst_state_of S).level = RiskLevel.halted ∧
          pyTruthy (worst_state_of S).reason = true
      · rw [if_pos (by exact_mod_cast ht)] at h
        have hst := congrArg Prod.fst h
        have hkv := congrArg Prod.snd h
        simp only at hst hkv
        refine ⟨?_, ?_, ?_, ?_⟩
        · intro s hs
          rw [← hst]
          exact worst_state_of_le_mem S s hs
        · rw [← hst]
          exact worst_state_of_mem S
        · intro s hs hm ha
          rw [← hst]
          exact worst_state_of_alert S s hs (by rw [hst]; exact hm) ha
        · intro _
          rw [← hkv]
          unfold trip_circuit_breaker
          simp only
          rw [pyTruthy_getD ht.2, hst]
      · rw [if_neg (by exact_mod_cast ht)] at h
        have hst := congrArg Prod.fst h
        have hkv := congrArg Prod.snd h
        simp only at hst hkv
        refine ⟨?_, ?_, ?_, ?_⟩
        · intro s hs
          rw [← hst]
          exact worst_state_of_le_mem S s hs
        · rw [← hst]
          exact worst_state_of_mem S
        · intro s hs hm ha
          rw [← hst]
          exact worst_state_of_alert S s hs (by rw [hst]; exact hm) ha
        · intro hhl
          exfalso
          apply ht
          refine ⟨by rw [hst]; exact hhl, ?_⟩
          rcases worst_state_of_mem S with hmem | hnorm
          · exact states_reason_ok cfg kv now sd sw pk cur vix lq _ hmem
              (by rw [hst]; exact hhl)
          · exfalso
            have hn : st.level = RiskLevel.normal := by
              rw [← hst, hnorm]
              rfl
            rw [hn] at hhl
            exact absurd hhl (by simp)
    exact ⟨fun htr => absurd htr (by simpa using hh), hmain⟩

/-- A KV store with the breaker not tripped and no rapid loss. -/
def kv0 : KVState :=
  { circuit_breaker := { halted := false }, rapid_loss_amount := 0 }

/-- The daily-halt factor state (2% daily loss breached). -/
def stDailyHalt : RiskState :=
  { level := .halted, size_multiplier := 0,
    reason := some CircuitBreakerReason.DAILY_HALT, should_alert := true }

/-- The circuit-breaker entry after the daily-halt trip at time 0. -/
def cbDailyHalt : CircuitBreakerStatus :=
  { halted := true, reason := some CircuitBreakerReason.DAILY_HALT,
    triggered_at := some 0 }

/-- The KV store after the daily-halt trip at time 0. -/
def kvDailyHalt : KVState :=
  { circuit_breaker := cbDailyHalt, rapid_loss_amount := 0 }

/-- C4 witness: equity 97900 against a 100000 daily start is a 2.1%
daily loss; `evaluate_all` selects the daily halt and persists the trip
with its reason and timestamp. -/
theorem C4_evaluate_all_most_restrictive_witness :
    (evaluate_all {} kv0 0 100000 100000 100000 97900 none none).2.circuit_breaker =
      { halted := true, reason := some CircuitBreakerReason.DAILY_HALT,
        triggered_at := some 0 } := by
  have hE : evaluate_all {} kv0 0 100000 100000 100000 97900 none none =
      (stDailyHalt, kvDailyHalt) := by
    norm_num [evaluate_all, evaluate_states, evaluate_daily_risk,
      evaluate_weekly_risk, evaluate_drawdown_risk, evaluate_rapid_loss,
      calculate_loss_pct, worst_state_of, worst_step, RiskState.normalState,
      RiskState.haltedState, pyTruthy, trip_circuit_breaker, kv0,
      stDailyHalt, kvDailyHalt, cbDailyHalt, CircuitBreakerReason.DAILY_HALT,
      CircuitBreakerReason.DAILY_ALERT, CircuitBreakerReason.DAILY_REDUCE]
    decide
  have H := (C4_evaluate_all_most_restrictive {} kv0 0 100000 100000 100000
    97900 none none stDailyHalt kvDailyHalt hE).2 rfl
  have H4 := H.2.2.2 rfl
  rw [hE]
  rw [H4]
  rfl

/-! ## Screener lemmas: decomposing an emitted spread -/

theorem CreditSpread.width_nonneg (s : CreditSpread) : 0 ≤ s.width :=
  abs_nonneg _

/-- A scored spread carries exactly the spread it was built from, and
scoring only succeeds when the spread's width is nonzero (hence
positive). -/
theorem score_spread_spread_eq (sp : CreditSpread) (ivm : IVMetrics)
    (d : ℚ) (ss : ScoredSpread) (h : score_spread sp ivm d = some ss) :
    ss.spread = sp ∧ 0 < sp.width := by
  unfold score_spread at h
  simp only [Option.bind_eq_bind, Option.bind_eq_some, Option.pure_def,
    Option.some.injEq] at h
  obtain ⟨cw, hcw, ev, hev, hss⟩ := h
  have hwne : sp.width ≠ 0 := by
    intro hw0
    rw [pyDiv, if_pos hw0] at hcw
    exact Option.noConfusion hcw
  have hwpos : 0 < sp.width :=
    lt_of_le_of_ne (CreditSpread.width_nonneg sp) (Ne.symm hwne)
  exact ⟨by rw [← hss], hwpos⟩

/-- Bounds on the score computed by `_score_spread`: with an IV rank in
[0,100], a short delta in [0,1/2], positive credit and credit at most
the width, the score lands in [0,1]. -/
theorem score_spread_bounds (sp : CreditSpread) (ivm : IVMetrics) (d : ℚ)
    (ss : ScoredSpread) (h : score_spread sp ivm d = some ss)
    (hiv0 : 0 ≤ ivm.iv_rank) (hiv1 : ivm.iv_rank ≤ 100)
    (hd0 : 0 ≤ d) (hd : d ≤ 1/2) (hcred : 0 < sp.credit)
    (hcw : sp.credit ≤ sp.width) :
    0 ≤ ss.score ∧ ss.score ≤ 1 := by
  have hw := (score_spread_spread_eq sp ivm d ss h).2
  unfold score_spread at h
  simp only [Option.bind_eq_bind, Option.bind_eq_some, Option.pure_def,
    Option.some.injEq] at h
  obtain ⟨cw, hcwdiv, ev, hevdiv, hss⟩ := h
  rw [pyDiv_ne_zero (ne_of_gt hw)] at hcwdiv
  have hw100 : (0:ℚ) < sp.width * 100 := by positivity
  rw [pyDiv_ne_zero (ne_of_gt hw100)] at hevdiv
  have hcweq : cw = sp.credit / sp.width := (Option.some.inj hcwdiv).symm
  have heveq : ev =
      max 0 (sp.credit * 100 * (1 - |d|)
        - sp.max_loss * (1 - (1 - |d|))) / (sp.width * 100) :=
    (Option.some.inj hevdiv).symm
  subst hss
  simp only [abs_of_nonneg hd0] at heveq ⊢
  -- iv component
  have hiv : 0 ≤ ivm.iv_rank / 100 ∧ ivm.iv_rank / 100 ≤ 1 :=
    ⟨div_nonneg hiv0 (by norm_num), by
      rw [div_le_one (by norm_num)]; linarith⟩
  -- delta component
  have hdel : |d - 1/4| ≤ 1/4 := abs_le.mpr ⟨by linarith, by linarith⟩
  have hdel0 : 0 ≤ |d - 1/4| := abs_nonneg _
  -- credit component
  have hcwpos : 0 < cw := hcweq ▸ div_pos hcred hw
  have hmin0 : 0 ≤ min cw (1/2) := le_min (le_of_lt hcwpos) (by norm_num)
  have hmin1 : min cw (1/2) ≤ 1/2 := min_le_right _ _
  -- EV component
  have hml : 0 ≤ sp.max_loss := by
    unfold CreditSpread.max_loss
    nlinarith
  have hEVle : sp.credit * 100 * (1 - d) - sp.max_loss * (1 - (1 - d)) ≤
      sp.width * 100 := by nlinarith
  have hev0 : 0 ≤ ev := heveq ▸ div_nonneg (le_max_left _ _) (le_of_lt hw100)
  have hev1 : ev ≤ 1 := by
    rw [heveq, div_le_one hw100]
    exact max_le (by linarith) hEVle
  constructor
  · dsimp only
    nlinarith
  · dsimp only
    nlinarith

/-- What must have held for `process_bull_put_pair` to emit a scored
spread. -/
theorem process_bull_put_pair_some (cfg : ScreenerConfig)
    (bsDelta : ℚ → ℚ → ℚ → ℚ → String → ℚ) (und : String)
    (spot tte civ : ℚ) (ivm : IVMetrics) (exp : ℤ)
    (p : BrokerContract × BrokerContract) (ss : ScoredSpread)
    (h : process_bull_put_pair cfg bsDelta und spot tte civ ivm exp p =
      some ss) :
    ∃ d, cfg.min_delta ≤ d ∧ d ≤ cfg.max_delta ∧ 0 ≤ d ∧
      cfg.min_width ≤ p.1.strike - p.2.strike ∧
      ss.spread = build_spread und SpreadType.bull_put p.1 p.2 exp ∧
      0 < ss.spread.credit ∧
      ¬ (ss.spread.credit / (p.1.strike - p.2.strike) < cfg.min_credit_pct) ∧
      score_spread ss.spread ivm d = some ss := by
  simp only [process_bull_put_pair] at h
  rcases em (cfg.min_delta ≤ |get_delta bsDelta p.1 spot tte civ "put"| ∧
      |get_delta bsDelta p.1 spot tte civ "put"| ≤ cfg.max_delta) with h1 | h1
  swap
  · rw [if_pos h1] at h
    exact absurd h (by simp)
  rw [if_neg (not_not_intro h1)] at h
  rcases em (cfg.min_width ≤ p.1.strike - p.2.strike ∧
      p.1.strike - p.2.strike ≤ cfg.max_width) with h2 | h2
  swap
  · rw [if_pos h2] at h
    exact absurd h (by simp)
  rw [if_neg (not_not_intro h2)] at h
  rcases em ((build_spread und SpreadType.bull_put p.1 p.2 exp).credit ≤ 0)
    with h3 | h3
  · rw [if_pos h3] at h
    exact absurd h (by simp)
  rw [if_neg h3] at h
  rw [Option.bind_eq_some] at h
  obtain ⟨cp, hcp, hif⟩ := h
  rcases em (cp < cfg.min_credit_pct) with h4 | h4
  · rw [if_pos h4] at hif
    exact absurd hif (by simp)
  rw [if_neg h4] at hif
  have hsp := (score_spread_spread_eq _ _ _ _ hif).1
  have hwne : p.1.strike - p.2.strike ≠ 0 := by
    intro hw0
    rw [pyDiv, if_pos hw0] at hcp
    exact Option.noConfusion hcp
  rw [pyDiv_ne_zero hwne] at hcp
  have hcpeq := (Option.some.inj hcp).symm
  refine ⟨|get_delta bsDelta p.1 spot tte civ "put"|, h1.1, h1.2,
    abs_nonneg _, h2.1, hsp, ?_, ?_, ?_⟩
  · rw [hsp]
    exact lt_of_not_le h3
  · rw [hsp]
    rw [← hcpeq]
    exact h4
  · rw [hsp]
    exact hif

/-- What must have held for `process_bear_call_pair` to emit a scored
spread. -/
theorem process_bear_call_pair_some (cfg : ScreenerConfig)
    (bsDelta : ℚ → ℚ → ℚ → ℚ → String → ℚ) (und : String)
    (spot tte civ : ℚ) (ivm : IVMetrics) (exp : ℤ)
    (p : BrokerContract × BrokerContract) (ss : ScoredSpread)
    (h : process_bear_call_pair cfg bsDelta und spot tte civ ivm exp p =
      some ss) :
    ∃ d, cfg.min_delta ≤ d ∧ d ≤ cfg.max_delta ∧ 0 ≤ d ∧
      cfg.min_width ≤ p.2.strike - p.1.strike ∧
      ss.spread = build_spread und SpreadType.bear_call p.1 p.2 exp ∧
      0 < ss.spread.credit ∧
      ¬ (ss.spread.credit / (p.2.strike - p.1.strike) < cfg.min_credit_pct) ∧
      score_spread ss.spread ivm d = some ss := by
  simp only [process_bear_call_pair] at h
  rcases em (cfg.min_delta ≤ |get_delta bsDelta p.1 spot tte civ "call"| ∧
      |get_delta bsDelta p.1 spot tte civ "call"| ≤ cfg.max_delta) with h1 | h1
  swap
  · rw [if_pos h1] at h
    exact absurd h (by simp)
  rw [if_neg (not_not_intro h1)] at h
  rcases em (cfg.min_width ≤ p.2.strike - p.1.strike ∧
      p.2.strike - p.1.strike ≤ cfg.max_width) with h2 | h2
  swap
  · rw [if_pos h2] at h
    exact absurd h (by simp)
  rw [if_neg (not_not_intro h2)] at h
  rcases em ((build_spread und SpreadType.bear_call p.1 p.2 exp).credit ≤ 0)
    with h3 | h3
  · rw [if_pos h3] at h
    exact absurd h (by simp)
  rw [if_neg h3] at h
  rw [Option.bind_eq_some] at h
  obtain ⟨cp, hcp, hif⟩ := h
  rcases em (cp < cfg.min_credit_pct) with h4 | h4
  · rw [if_pos h4] at hif
    exact absurd hif (by simp)
  rw [if_neg h4] at hif
  have hsp := (score_spread_spread_eq _ _ _ _ hif).1
  have hwne : p.2.strike - p.1.strike ≠ 0 := by
    intro hw0
    rw [pyDiv, if_pos hw0] at hcp
    exact Option.noConfusion hcp
  rw [pyDiv_ne_zero hwne] at hcp
  have hcpeq := (Option.some.inj hcp).symm
  refine ⟨|get_delta bsDelta p.1 spot tte civ "call"|, h1.1, h1.2,
    abs_nonneg _, h2.1, hsp, ?_, ?_, ?_⟩
  · rw [hsp]
    exact lt_of_not_le h3
  · rw [hsp]
    rw [← hcpeq]
    exact h4
  · rw [hsp]
    exact hif

/-- Membership in the screener output comes from one of the two pair
enumerations for some expiration. -/
theorem mem_screen_chain (cfg : ScreenerConfig)
    (bsDelta : ℚ → ℚ → ℚ → ℚ → String → ℚ) (today : ℤ)
    (chain : OptionsChain) (ivm : IVMetrics) (ss : ScoredSpread)
    (h : ss ∈ screen_chain cfg bsDelta today chain ivm) :
    ∃ e, ss ∈ find_bull_put_spreads cfg bsDelta today chain e ivm ∨
      ss ∈ find_bear_call_spreads cfg bsDelta today chain e ivm := by
  simp only [screen_chain] at h
  rcases em (is_elevated_iv ivm.iv_rank cfg.min_iv_rank = true) with hg | hg
  · rw [if_neg (not_not_intro hg)] at h
    rw [(List.perm_insertionSort _ _).mem_iff, List.mem_flatMap] at h
    obtain ⟨e, _, hmem⟩ := h
    rw [List.mem_append] at hmem
    exact ⟨e, hmem⟩
  · rw [if_pos hg] at h
    exact absurd h (List.not_mem_nil ss)

/-- Membership in the bull-put enumeration comes from some visited
pair. -/
theorem mem_find_bull_put (cfg : ScreenerConfig)
    (bsDelta : ℚ → ℚ → ℚ → ℚ → String → ℚ) (today : ℤ)
    (chain : OptionsChain) (e : ℤ) (ivm : IVMetrics) (ss : ScoredSpread)
    (h : ss ∈ find_bull_put_spreads cfg bsDelta today chain e ivm) :
    ∃ p, process_bull_put_pair cfg bsDelta chain.underlying
      chain.underlying_price (years_to_expiry today e) ivm.current_iv ivm e
      p = some ss := by
  simp only [find_bull_put_spreads] at h
  rcases em ((filter_for_liquidity cfg (chain.get_puts e)).length < 2)
    with hl | hl
  · rw [if_pos hl] at h
    exact absurd h (List.not_mem_nil ss)
  · rw [if_neg hl] at h
    rw [List.mem_filterMap] at h
    obtain ⟨p, _, hp⟩ := h
    exact ⟨p, hp⟩

/-- Membership in the bear-call enumeration comes from some visited
pair. -/
theorem mem_find_bear_call (cfg : ScreenerConfig)
    (bsDelta : ℚ → ℚ → ℚ → ℚ → String → ℚ) (today : ℤ)
    (chain : OptionsChain) (e : ℤ) (ivm : IVMetrics) (ss : ScoredSpread)
    (h : ss ∈ find_bear_call_spreads cfg bsDelta today chain e ivm) :
    ∃ p, process_bear_call_pair cfg bsDelta chain.underlying
      chain.underlying_price (years_to_expiry today e) ivm.current_iv ivm e
      p = some ss := by
  simp only [find_bear_call_spreads] at h
  rcases em ((filter_for_liquidity cfg (chain.get_calls e)).length < 2)
    with hl | hl
  · rw [if_pos hl] at h
    exact absurd h (List.not_mem_nil ss)
  · rw [if_neg hl] at h
    rw [List.mem_filterMap] at h
    obtain ⟨p, _, hp⟩ := h
    exact ⟨p, hp⟩

/-- C8: with a positive minimum width, every spread the screener emits
has positive credit, credit/width at least the configured minimum, and
strikes ordered for its type (bull put: short above long; bear call:
short below long). -/
theorem C8_screener_spread_validity (cfg : ScreenerConfig)
    (bsDelta : ℚ → ℚ → ℚ → ℚ → String → ℚ) (today : ℤ)
    (chain : OptionsChain) (ivm : IVMetrics) (hw : 0 < cfg.min_width) :
    ∀ ss ∈ screen_chain cfg bsDelta today chain ivm,
      0 < ss.spread.credit ∧
      cfg.min_credit_pct ≤ ss.spread.credit / ss.spread.width ∧
      (ss.spread.spread_type = SpreadType.bull_put →
        ss.spread.long_strike < ss.spread.short_strike) ∧
      (ss.spread.spread_type = SpreadType.bear_call →
        ss.spread.short_strike < ss.spread.long_strike) := by
  intro ss hss
  obtain ⟨e, hcase⟩ := mem_screen_chain cfg bsDelta today chain ivm ss hss
  rcases hcase with hb | hc
  · obtain ⟨p, hp⟩ := mem_find_bull_put cfg bsDelta today chain e ivm ss hb
    obtain ⟨d, _, _, _, hwid, hsp, hcred, hcp, _⟩ :=
      process_bull_put_pair_some _ _ _ _ _ _ _ _ _ _ hp
    have hwpos : 0 < p.1.strike - p.2.strike := lt_of_lt_of_le hw hwid
    refine ⟨hcred, ?_, ?_, ?_⟩
    · have hwidth : ss.spread.width = p.1.strike - p.2.strike := by
        rw [hsp]
        show |p.1.strike - p.2.strike| = p.1.strike - p.2.strike
        exact abs_of_pos hwpos
      rw [hwidth]
      exact not_lt.mp hcp
    · intro _
      rw [hsp]
      show p.2.strike < p.1.strike
      exact sub_pos.mp hwpos
    · intro hty
      rw [hsp] at hty
      exact absurd hty (by simp [build_spread])
  · obtain ⟨p, hp⟩ := mem_find_bear_call cfg bsDelta today chain e ivm ss hc
    obtain ⟨d, _, _, _, hwid, hsp, hcred, hcp, _⟩ :=
      process_bear_call_pair_some _ _ _ _ _ _ _ _ _ _ hp
    have hwpos : 0 < p.2.strike - p.1.strike := lt_of_lt_of_le hw hwid
    refine ⟨hcred, ?_, ?_, ?_⟩
    · have hwidth : ss.spread.width = p.2.strike - p.1.strike := by
        rw [hsp]
        show |p.1.strike - p.2.strike| = p.2.strike - p.1.strike
        rw [abs_sub_comm]
        exact abs_of_pos hwpos
      rw [hwidth]
      exact not_lt.mp hcp
    · intro hty
      rw [hsp] at hty
      exact absurd hty (by simp [build_spread])
    · intro _
      rw [hsp]
      show p.1.strike < p.2.strike
      exact sub_pos.mp hwpos

/-- C7 (amended): with IV rank in [0,100] and the short-delta window
capped at 1/2, every emitted spread whose credit does not exceed its
width has score in [0,1]; without those conditions the score can leave
[0,1] (see the counterexample). -/
theorem C7_score_in_unit_interval (cfg : ScreenerConfig)
    (bsDelta : ℚ → ℚ → ℚ → ℚ → String → ℚ) (today : ℤ)
    (chain : OptionsChain) (ivm : IVMetrics)
    (hiv0 : 0 ≤ ivm.iv_rank) (hiv1 : ivm.iv_rank ≤ 100)
    (hd1 : cfg.max_delta ≤ 1/2) :
    ∀ ss ∈ screen_chain cfg bsDelta today chain ivm,
      ss.spread.credit ≤ ss.spread.width →
      0 ≤ ss.score ∧ ss.score ≤ 1 := by
  intro ss hss hcw
  obtain ⟨e, hcase⟩ := mem_screen_chain cfg bsDelta today chain ivm ss hss
  rcases hcase with hb | hc
  · obtain ⟨p, hp⟩ := mem_find_bull_put cfg bsDelta today chain e ivm ss hb
    obtain ⟨d, hdmin, hdmax, hd0, _, hsp, hcred, _, hscore⟩ :=
      process_bull_put_pair_some _ _ _ _ _ _ _ _ _ _ hp
    exact score_spread_bounds ss.spread ivm d ss hscore hiv0 hiv1 hd0
      (le_trans hdmax hd1) hcred hcw
  · obtain ⟨p, hp⟩ := mem_find_bear_call cfg bsDelta today chain e ivm ss hc
    obtain ⟨d, hdmin, hdmax, hd0, _, hsp, hcred, _, hscore⟩ :=
      process_bear_call_pair_some _ _ _ _ _ _ _ _ _ _ hp
    exact score_spread_bounds ss.spread ivm d ss hscore hiv0 hiv1 hd0
      (le_trans hdmax hd1) hcred hcw

/-! ## Screener fixtures -/

/-- A delta oracle (never consulted: the fixture contracts all carry
broker deltas). -/
def bsDelta0 : ℚ → ℚ → ℚ → ℚ → String → ℚ := fun _ _ _ _ _ => 0

/-- A liquid 100-strike put quoted at 10.00 with delta −0.25. -/
def put100 : BrokerContract :=
  { symbol := "P100", underlying := "SPY", expiration := 35, strike := 100,
    option_type := "put", bid := 10, ask := 10, last := 10, volume := 100,
    open_interest := 1000, delta := some (-(1/4)) }

/-- A liquid 99-strike put quoted at 0.02 — makes the spread's credit
(9.98) exceed its width (1). -/
def put99cheap : BrokerContract :=
  { symbol := "P99", underlying := "SPY", expiration := 35, strike := 99,
    option_type := "put", bid := 1/50, ask := 1/50, last := 0, volume := 100,
    open_interest := 1000, delta := some (-(1/20)) }

/-- A liquid 99-strike put quoted at 9.70 — a normal 0.30-credit
spread. -/
def put99rich : BrokerContract :=
  { symbol := "P99R", underlying := "SPY", expiration := 35, strike := 99,
    option_type := "put", bid := 97/10, ask := 97/10, last := 0,
    volume := 100, open_interest := 1000, delta := some (-(1/20)) }

/-- Chain producing a credit-above-width bull put spread. -/
def chain7 : OptionsChain :=
  { underlying := "SPY", underlying_price := 105, timestamp := 0,
    expirations := [35], contracts := [put100, put99cheap] }

/-- Chain producing a normal bull put spread. -/
def chain7w : OptionsChain :=
  { underlying := "SPY", underlying_price := 105, timestamp := 0,
    expirations := [35], contracts := [put100, put99rich] }

/-- IV metrics at the maximal rank 100. -/
def ivm7 : IVMetrics :=
  { current_iv := 1/5, iv_rank := 100, iv_percentile := 100, iv_high := 1,
    iv_low := 109/1000 }

/-- C7 counterexample: on `chain7` (default configuration, IV rank 100,
35 DTE) the screener emits exactly one spread and its score is
1273/400 = 3.18… > 1, so screener scores are not confined to [0,1]. -/
theorem C7_counterexample :
    (screen_chain {} bsDelta0 0 chain7 ivm7).map ScoredSpread.score =
      [1273/400] ∧ ¬ ((1273:ℚ)/400 ≤ 1) := by
  constructor
  · norm_num [screen_chain, find_bull_put_spreads, find_bear_call_spreads,
      process_bull_put_pair, process_bear_call_pair, filter_for_liquidity,
      liquidity_ok, OptionsChain.get_puts, OptionsChain.get_calls,
      OptionsChain.get_expiration, get_delta, build_spread, to_core_contract,
      score_spread, pyDiv, pyTruthyQ, CreditSpread.credit, CreditSpread.width,
      CreditSpread.max_loss, years_to_expiry, days_to_expiry, is_elevated_iv,
      pairs_after, List.insertionSort, List.orderedInsert, put100, put99cheap,
      chain7, ivm7, max_def, min_def, abs, List.filterMap_cons,
      List.filterMap_nil, List.filter_cons, List.filter_nil, List.map_cons,
      List.map_nil, List.length_cons, Option.bind_eq_bind, Option.some_bind,
      Option.pure_def]
  · norm_num

/-- The one scored spread the screener emits on `chain7w`. -/
def s7w : ScoredSpread :=
  { spread := build_spread "SPY" SpreadType.bull_put put100 put99rich 35,
    score := 53/80, iv_rank := 100, expected_value := 5,
    probability_otm := 3/4 }

/-- The screener output on `chain7w` is exactly `[s7w]`. -/
theorem screen_chain7w_eval :
    screen_chain {} bsDelta0 0 chain7w ivm7 = [s7w] := by
  norm_num [screen_chain, find_bull_put_spreads, find_bear_call_spreads,
    process_bull_put_pair, process_bear_call_pair, filter_for_liquidity,
    liquidity_ok, OptionsChain.get_puts, OptionsChain.get_calls,
    OptionsChain.get_expiration, get_delta, build_spread, to_core_contract,
    score_spread, pyDiv, pyTruthyQ, CreditSpread.credit, CreditSpread.width,
    CreditSpread.max_loss, years_to_expiry, days_to_expiry, is_elevated_iv,
    pairs_after, List.insertionSort, List.orderedInsert, put100, put99rich,
    chain7w, ivm7, s7w, max_def, min_def, abs, List.filterMap_cons,
    List.filterMap_nil, List.filter_cons, List.filter_nil, List.map_cons,
    List.map_nil, List.length_cons, Option.bind_eq_bind, Option.some_bind,
    Option.pure_def]

/-- C7 witness: the spread emitted on `chain7w` has credit 0.30 against
width 1, and its score 53/80 lies in [0,1]. -/
theorem C7_score_in_unit_interval_witness :
    0 ≤ s7w.score ∧ s7w.score ≤ 1 := by
  have hmem : s7w ∈ screen_chain {} bsDelta0 0 chain7w ivm7 := by
    rw [screen_chain7w_eval]
    exact List.mem_singleton.mpr rfl
  exact C7_score_in_unit_interval {} bsDelta0 0 chain7w ivm7
    (by norm_num [ivm7]) (by norm_num [ivm7]) (by norm_num) s7w hmem
    (by norm_num [s7w, build_spread, to_core_contract, CreditSpread.credit,
      CreditSpread.width, put100, put99rich])

/-- C8 witness: the spread emitted on `chain7w` has positive credit,
credit/width above the 25% minimum, and short strike above long
strike. -/
theorem C8_screener_spread_validity_witness :
    0 < s7w.spread.credit ∧
    ({} : ScreenerConfig).min_credit_pct ≤ s7w.spread.credit / s7w.spread.width ∧
    (s7w.spread.spread_type = SpreadType.bull_put →
      s7w.spread.long_strike < s7w.spread.short_strike) ∧
    (s7w.spread.spread_type = SpreadType.bear_call →
      s7w.spread.short_strike < s7w.spread.long_strike) := by
  have hmem : s7w ∈ screen_chain {} bsDelta0 0 chain7w ivm7 := by
    rw [screen_chain7w_eval]
    exact List.mem_singleton.mpr rfl
  exact C8_screener_spread_validity {} bsDelta0 0 chain7w ivm7
    (by norm_num) s7w hmem
